import Mathlib

/-!
# eaws: credential classification and the `container connect` pipeline

A shallow embedding of `internal/utils/aws.go`, `internal/utils/aws_help.go`,
`internal/utils/colors.go` and `cmd/container_connect.go`.

Conventions of the embedding.

* Go strings are Lean `String`s.  The only separators and markers the program
  searches for are ASCII, so searching characters agrees with searching bytes.
* A Go `error` is a value of `GoError`; `nil` is `none`.
* Everything outside the process (AWS API, the chooser, child processes, the
  file system) is a field of a record of answers (`CredHost`, `AdvisorHost`,
  `World`).  A run returns the list of externally visible events it caused, in
  order, and how it ended.
* The colour helpers of `colors.go` are rendered without escape sequences
  (the `NO_COLOR` rendering), and the durations printed under `--verbose` are
  left out of the text.
-/

namespace Eaws

/-! ## Strings -/

/-- Does `needle` occur in the character list as a contiguous block. -/
def containsChars (needle : List Char) : List Char → Bool
  | [] => needle.isPrefixOf []
  | c :: cs => needle.isPrefixOf (c :: cs) || containsChars needle cs

/-- Go `strings.Contains(s, substr)`. -/
def strings.Contains (s substr : String) : Bool :=
  containsChars substr.data s.data

/-- Splitting a character list at every occurrence of `sep`. -/
def splitChars (sep : Char) : List Char → List (List Char)
  | [] => [[]]
  | c :: cs =>
    if c = sep then [] :: splitChars sep cs
    else
      match splitChars sep cs with
      | [] => [[c]]
      | p :: ps => (c :: p) :: ps

/-- Go `strings.Split(s, sep)` for a separator of one character (the program
only ever splits at "/"). -/
def strings.Split (s : String) (sep : Char) : List String :=
  (splitChars sep s.data).map String.mk

/-- The Go expression `parts[len(parts)-1]`, evaluated where `parts` is not empty. -/
def lastPart (parts : List String) : String :=
  parts.getLastD ""

/-! ## Errors -/

/-- Go error values as the program builds and inspects them. -/
inductive GoError where
  /-- An error carrying only a text: `errors.New`, `fmt.Errorf` without `%w`,
  and errors of the libraries. -/
  | errorString (msg : String)
  /-- The value of `fmt.Errorf` with one `%w` verb: a text and the wrapped error. -/
  | wrapError (msg : String) (cause : GoError)
  /-- The program's `*AWSAuthError`. -/
  | AWSAuthError (Message : String) (Cause : GoError)
  deriving DecidableEq, Repr

/-- The method `Error()`. -/
def GoError.Error : GoError → String
  | .errorString msg => msg
  | .wrapError msg _ => msg
  | .AWSAuthError Message _ => Message

/-- The method `Unwrap()`, where the error has one. -/
def GoError.Unwrap : GoError → Option GoError
  | .errorString _ => none
  | .wrapError _ cause => some cause
  | .AWSAuthError _ Cause => some Cause

/-- The Go call `fmt.Errorf(pre + "%w", err)`. -/
def Errorf_w (pre : String) (err : GoError) : GoError :=
  .wrapError (pre ++ err.Error) err

/-- The Go call `errors.As(err, &authErr)` for `authErr` of type `*AWSAuthError`:
the first `*AWSAuthError` on the chain of `err`. -/
def errorsAsAuthError : GoError → Option GoError
  | .errorString _ => none
  | .wrapError _ cause => errorsAsAuthError cause
  | .AWSAuthError Message Cause => some (.AWSAuthError Message Cause)

deriving instance DecidableEq for Except

/-! ## Events and results of a run -/

/-- What a run does that is visible outside the process. -/
inductive Event where
  | lookPath (file : String)
  | setenv (key value : String)
  | exec (name : String) (args : List String)
  | loadDefaultConfig
  | getCallerIdentity
  | listClusters
  | listServices (cluster : String)
  | listTasks (cluster serviceName : String)
  | describeTasks (cluster : String) (tasks : List String)
  | describeContainerInstances (cluster : String) (containerInstances : List String)
  | prompt (label : String) (items : List String)
  | printSuccess (message : String)
  | printError (message : String)
  | printInfo (message : String)
  | printWarning (message : String)
  | printf (text : String)
  deriving DecidableEq, Repr

/-- How a command ends: `return nil`, `return err`, or a run-time panic
(nil dereference, index out of range). -/
inductive Outcome where
  | ok
  | error (err : GoError)
  | panic
  deriving DecidableEq, Repr

/-- The events of a run, in order, and its end. -/
structure Run where
  trace : List Event
  outcome : Outcome
  deriving DecidableEq, Repr

/-- The run `r` preceded by the events `evs`. -/
def Run.after (evs : List Event) (r : Run) : Run :=
  ⟨evs ++ r.trace, r.outcome⟩

/-- The line printed under `--verbose` at the end of a step. -/
def timing (verbose : Bool) (step : String) : List Event :=
  if verbose then [.printInfo ("✓ " ++ step)] else []

/-! ## `internal/utils/aws.go` -/

/-- What the machine answers during one call of `LoadAWSConfig`. -/
structure CredHost where
  /-- Is `exec.LookPath("assume")` successful. -/
  lookPathAssume : Bool
  /-- Running `assume` with the given arguments: `none` on success, else the
  error of `cmd.Run()` and what the child wrote on its standard error. -/
  assumeRun : List String → Option (GoError × String)
  /-- The value of `os.Getenv("AWS_PROFILE")`. -/
  envAWSProfile : String
  /-- The error of `config.LoadDefaultConfig`, if any. -/
  loadDefaultConfig : Option GoError
  /-- The error of `sts.GetCallerIdentity`, if any. -/
  getCallerIdentity : Option GoError

def msgNoCredentials : String :=
  "No AWS credentials found. Please run 'aws configure' or set up AWS SSO with 'aws sso login'."

def msgExpired : String :=
  "AWS credentials have expired. Please run 'aws sso login' to refresh your credentials."

def msgInsufficient : String :=
  "AWS credentials are valid but insufficient permissions. Please check your IAM permissions."

def msgGeneric : String :=
  "Failed to verify AWS credentials. Please check your AWS configuration."

/-- The body of `if err != nil { ... }` in `verifyAWSCredentials`: the
`*AWSAuthError` returned for the error `err` of `GetCallerIdentity`. -/
def classifyIdentityError (err : GoError) : GoError :=
  let errorStr := err.Error
  if strings.Contains errorStr "NoCredentialsError" then
    .AWSAuthError msgNoCredentials err
  else if strings.Contains errorStr "TokenRefreshRequired" || strings.Contains errorStr "ExpiredToken" then
    .AWSAuthError msgExpired err
  else if strings.Contains errorStr "UnauthorizedOperation" || strings.Contains errorStr "AccessDenied" then
    .AWSAuthError msgInsufficient err
  else
    .AWSAuthError msgGeneric err

/-- Go `verifyAWSCredentials`: the argument is the error of `GetCallerIdentity`. -/
def verifyAWSCredentials (getCallerIdentity : Option GoError) : Option GoError :=
  match getCallerIdentity with
  | some err => some (classifyIdentityError err)
  | none => none

/-- Go `runAssumeCommand`. -/
def runAssumeCommand (h : CredHost) (profile : String) : List Event × Option GoError :=
  match h.assumeRun [profile] with
  | some (err, errorMsg) =>
    if strings.Contains errorMsg "no such file or directory" then
      ([.exec "assume" [profile]],
        some (.AWSAuthError ("AWS profile '" ++ profile ++
          "' not found or granted tool not properly configured. Please check your AWS SSO configuration.") err))
    else
      ([.exec "assume" [profile]],
        some (.AWSAuthError ("Failed to assume AWS profile '" ++ profile ++ "': " ++ errorMsg) err))
  | none =>
    ([.exec "assume" [profile], .printSuccess ("Successfully assumed AWS profile: " ++ profile)], none)

/-- Go `setAWSProfile`. -/
def setAWSProfile (h : CredHost) (profile : String) : List Event × Option GoError :=
  if h.lookPathAssume then
    let r := runAssumeCommand h profile
    (.lookPath "assume" :: r.1, r.2)
  else
    ([.lookPath "assume", .setenv "AWS_PROFILE" profile,
      .printInfo ("Using AWS profile: " ++ profile)], none)

/-- Go `tryAssumeProfile`. -/
def tryAssumeProfile (h : CredHost) : List Event × Option GoError :=
  if h.lookPathAssume then
    match h.assumeRun [] with
    | some (err, _) =>
      ([.lookPath "assume", .exec "assume" []],
        some (.errorString ("failed to run assume command: " ++ err.Error)))
    | none => ([.lookPath "assume", .exec "assume" []], none)
  else
    ([.lookPath "assume"], some (.errorString "assume command not found"))

/-- The first block of `LoadAWSConfig` ("Handle profile configuration"). -/
def handleProfile (h : CredHost) (profile : String) : List Event × Option GoError :=
  if profile ≠ "" then
    setAWSProfile h profile
  else if h.envAWSProfile = "" then
    let r := tryAssumeProfile h
    match r.2 with
    | some _ =>
      (r.1 ++ [.printWarning "No AWS profile configured, using default credentials"], none)
    | none => (r.1, none)
  else
    ([], none)

/-- Go `LoadAWSConfig`: the events, and the error returned (`none` when a
configuration is returned). -/
def LoadAWSConfig (h : CredHost) (profile : String) : List Event × Option GoError :=
  match handleProfile h profile with
  | (evs, some err) => (evs, some err)
  | (evs, none) =>
    match h.loadDefaultConfig with
    | some err =>
      (evs ++ [.loadDefaultConfig],
        some (.AWSAuthError
          "Failed to load AWS configuration. Please check your AWS credentials and configuration." err))
    | none =>
      match verifyAWSCredentials h.getCallerIdentity with
      | some err => (evs ++ [.loadDefaultConfig, .getCallerIdentity], some err)
      | none => (evs ++ [.loadDefaultConfig, .getCallerIdentity], none)

/-! ## `internal/utils/aws_help.go` -/

/-- What the machine answers to the Setup Advisor. -/
structure AdvisorHost where
  /-- Does `os.Stat(homeDir + "/.aws/sso")` succeed. -/
  statSsoDir : Bool
  /-- The value of `os.Hostname()` when it succeeds. -/
  hostname : Option String
  /-- Does `os.Stat("/usr/local/bin/assume")` succeed. -/
  statUsrLocalAssume : Bool
  /-- Does `os.Stat("/opt/homebrew/bin/assume")` succeed. -/
  statHomebrewAssume : Bool

/-- Go `isCorpEnvironment`. -/
def isCorpEnvironment (a : AdvisorHost) : Bool :=
  if a.statSsoDir then true
  else
    match a.hostname with
    | some hostname =>
      [".corp", ".internal", ".company", ".local"].any (fun domain => strings.Contains hostname domain)
    | none => false

/-- Go `isGrantedAvailable`. -/
def isGrantedAvailable (a : AdvisorHost) : Bool :=
  if a.statUsrLocalAssume then true else a.statHomebrewAssume

/-- Go `printEnvironmentSpecificInstructions`. -/
def printEnvironmentSpecificInstructions (a : AdvisorHost) : List Event :=
  .printf "\nEnvironment-specific setup:\n" ::
  if isCorpEnvironment a then
    [.printf "  • Corporate environment detected\n",
     .printf "    • Use AWS SSO: aws sso login --profile <profile-name>\n",
     .printf "    • Use granted: assume <profile-name>\n",
     .printf "    • Contact your AWS administrator for SSO setup\n"]
  else if isGrantedAvailable a then
    [.printf "  • Granted is available:\n",
     .printf "    • List profiles: assume\n",
     .printf "    • Use profile: assume <profile-name>\n",
     .printf "    • Or use with eaws: eaws --profile <profile-name> [command]\n"]
  else
    [.printf "  • Standard AWS setup:\n",
     .printf "    • Configure credentials: aws configure\n",
     .printf "    • Use named profile: aws configure --profile <profile-name>\n",
     .printf "    • Set profile: export AWS_PROFILE=<profile-name>\n"]

/-- Go `printGeneralTroubleshooting`. -/
def printGeneralTroubleshooting : List Event :=
  [.printf "\nTroubleshooting:\n",
   .printf "  • Check AWS configuration:\n",
   .printf "    • aws sts get-caller-identity\n",
   .printf "    • aws configure list\n",
   .printf "    • echo $AWS_PROFILE\n",
   .printf "  • Check AWS SSO (if using SSO):\n",
   .printf "    • aws sso login\n",
   .printf "    • aws configure sso\n",
   .printf "  • Check credentials location:\n",
   .printf "    • ~/.aws/credentials\n",
   .printf "    • ~/.aws/config\n"]

/-- Go `printQuickFixes`. -/
def printQuickFixes : List Event :=
  [.printf "\nQuick fixes:\n",
   .printf "  • For immediate access:\n",
   .printf "    • Set temporary credentials:\n",
   .printf "      export AWS_ACCESS_KEY_ID=your_access_key\n",
   .printf "      export AWS_SECRET_ACCESS_KEY=your_secret_key\n",
   .printf "      export AWS_DEFAULT_REGION=us-east-1\n",
   .printf "  • For development:\n",
   .printf "    • Use LocalStack for local development\n",
   .printf "    • Use AWS CLI profiles for different environments\n",
   .printf "  • For CI/CD:\n",
   .printf "    • Use IAM roles for EC2/ECS/Lambda\n",
   .printf "    • Use environment variables in CI systems\n"]

/-- Go `PrintSetupInstructions(err)`. -/
def PrintSetupInstructions (a : AdvisorHost) (_err : GoError) : List Event :=
  .printf "\nAWS Setup Instructions:\n" ::
    (printEnvironmentSpecificInstructions a ++ printGeneralTroubleshooting ++ printQuickFixes)

/-- Go `CheckAWSProfile`. -/
def CheckAWSProfile (h : CredHost) (a : AdvisorHost) (profile : String) :
    List Event × Option GoError :=
  match LoadAWSConfig h profile with
  | (evs, some err) =>
    match errorsAsAuthError err with
    | some authErr =>
      (evs ++ [.printError authErr.Error] ++ PrintSetupInstructions a authErr, some authErr)
    | none => (evs, some err)
  | (evs, none) => (evs, none)

/-! ## `cmd/container_connect.go` -/

/-- The ECS type `types.Container`, the two fields the command reads. -/
structure Container where
  Name : Option String
  RuntimeId : Option String
  deriving DecidableEq, Repr

/-- The ECS type `types.Task`, the two fields the command reads. -/
structure Task where
  ContainerInstanceArn : Option String
  Containers : List Container
  deriving DecidableEq, Repr

/-- The ECS type `types.ContainerInstance`, the field the command reads. -/
structure ContainerInstance where
  Ec2InstanceId : Option String
  deriving DecidableEq, Repr

/-- What the outside answers to the calls of `container connect` after the
credential check.  `promptRun label items` is `promptui.Select.Run()`: the
position and the text of the chosen item, or an error. -/
structure World where
  ListClusters : Except GoError (List String)
  ListServices : (cluster : String) → Except GoError (List String)
  ListTasks : (cluster serviceName : String) → Except GoError (List String)
  DescribeTasks : (cluster : String) → (tasks : List String) → Except GoError (List Task)
  DescribeContainerInstances :
    (cluster : String) → (containerInstances : List String) → Except GoError (List ContainerInstance)
  promptRun : (label : String) → (items : List String) → Except GoError (Nat × String)
  /-- The error of `ssmCmd.Run()` for the `aws` child process, if any. -/
  awsRun : (args : List String) → Option GoError

/-- The loop "Extract cluster names" (lines 59-65). -/
def clusterNames (clusterArns : List String) : List String :=
  clusterArns.foldl
    (fun names clusterArn =>
      let parts := strings.Split clusterArn '/'
      if parts.length > 1 then names ++ [lastPart parts] else names)
    []

/-- The loop "Extract service names" (lines 98-104). -/
def serviceNames (serviceArns : List String) : List String :=
  serviceArns.foldl
    (fun names serviceArn =>
      let parts := strings.Split serviceArn '/'
      if parts.length > 2 then names ++ [lastPart parts] else names)
    []

/-- The body of the loop over task ARNs (lines 147-153): the display name of one task. -/
def taskName (taskArn : String) : String :=
  let parts := strings.Split taskArn '/'
  if parts.length > 1 then lastPart parts else taskArn

/-- The loop over `tasksOutput.TaskArns` (lines 145-154). -/
def taskNames (taskArns : List String) : List String :=
  taskArns.foldl (fun names taskArn => names ++ [taskName taskArn]) []

/-- The loop collecting container names (lines 209-214). -/
def containerNames (containers : List Container) : List String :=
  containers.foldl
    (fun names container =>
      match container.Name with
      | some name => names ++ [name]
      | none => names)
    []

/-- The loop "Find the selected container" (lines 228-233). -/
def findContainer (containers : List Container) (selectedContainerName : String) :
    Option Container :=
  containers.find? (fun container => container.Name == some selectedContainerName)

/-- The remote command of line 272. -/
def sessionCommand (runtimeId : String) : String :=
  "sudo docker exec -ti " ++ runtimeId ++ " sh"

/-- The arguments given to `exec.Command("aws", ...)` (lines 279-282). -/
def ssmArgs (ec2InstanceId runtimeId : String) : List String :=
  ["ssm", "start-session",
   "--target", ec2InstanceId,
   "--document-name", "AWS-StartInteractiveCommand",
   "--parameters", "command=" ++ sessionCommand runtimeId]

/-- Lines 268-296: "Start SSM session". -/
def sessionStage (w : World) (verbose : Bool) (ec2InstanceId runtimeId : String) : Run :=
  Run.after
    [.printInfo ("EC2 Instance: " ++ ec2InstanceId),
     .printInfo ("Starting session with command: " ++ sessionCommand runtimeId),
     .printInfo "🚀 Connecting to container...",
     .exec "aws" (ssmArgs ec2InstanceId runtimeId)]
    (match w.awsRun (ssmArgs ec2InstanceId runtimeId) with
     | some err => ⟨[], .error (Errorf_w "failed to start SSM session: " err)⟩
     | none =>
       ⟨timing verbose "SSM session completed" ++ timing verbose "Total execution time", .ok⟩)

/-- Lines 246-266: "Get EC2 instance ID". -/
def instanceStage (w : World) (verbose : Bool)
    (selectedCluster containerInstanceArn runtimeId : String) : Run :=
  Run.after [.describeContainerInstances selectedCluster [containerInstanceArn]]
    (match w.DescribeContainerInstances selectedCluster [containerInstanceArn] with
     | .error err => ⟨[], .error (Errorf_w "failed to describe container instance: " err)⟩
     | .ok containerInstances =>
       Run.after (timing verbose "Describe container instance")
         (match containerInstances with
          | [] => ⟨[], .error (.errorString "no container instance details found")⟩
          | containerInstance :: _ =>
            match containerInstance.Ec2InstanceId with
            | none => ⟨[], .error (.errorString "no EC2 instance ID found")⟩
            | some ec2InstanceId => sessionStage w verbose ec2InstanceId runtimeId))

/-- Lines 242-244: the check of the runtime id of the selected container. -/
def runtimeIdCheck (w : World) (verbose : Bool)
    (selectedCluster containerInstanceArn : String) (selectedContainer : Container) : Run :=
  match selectedContainer.RuntimeId with
  | none => ⟨[], .error (.errorString "no runtime ID found for container")⟩
  | some runtimeId => instanceStage w verbose selectedCluster containerInstanceArn runtimeId

/-- Lines 196-240: the container stage. -/
def containerStage (w : World) (verbose : Bool)
    (selectedCluster containerInstanceArn : String) (containers : List Container) : Run :=
  match containers with
  | [] => ⟨[], .error (.errorString "no containers found in task")⟩
  | [container] =>
    match container.Name with
    | none => ⟨[], .panic⟩
    | some name =>
      Run.after [.printInfo ("Using container: " ++ name)]
        (runtimeIdCheck w verbose selectedCluster containerInstanceArn container)
  | c₁ :: c₂ :: rest =>
    Run.after [.prompt "Select container" (containerNames (c₁ :: c₂ :: rest))]
      (match w.promptRun "Select container" (containerNames (c₁ :: c₂ :: rest)) with
       | .error err => ⟨[], .error (Errorf_w "container selection cancelled: " err)⟩
       | .ok (_, selectedContainerName) =>
         match findContainer (c₁ :: c₂ :: rest) selectedContainerName with
         | none => ⟨[], .error (.errorString "selected container not found")⟩
         | some selectedContainer =>
           match selectedContainer.Name with
           | none => ⟨[], .panic⟩
           | some name =>
             Run.after [.printInfo ("Selected container: " ++ name)]
               (runtimeIdCheck w verbose selectedCluster containerInstanceArn selectedContainer))

/-- Lines 171-194: "Describe the task to get container details". -/
def describeStage (w : World) (verbose : Bool) (selectedCluster selectedTask : String) : Run :=
  Run.after [.describeTasks selectedCluster [selectedTask]]
    (match w.DescribeTasks selectedCluster [selectedTask] with
     | .error err => ⟨[], .error (Errorf_w "failed to describe task: " err)⟩
     | .ok tasks =>
       Run.after (timing verbose "Describe task")
         (match tasks with
          | [] => ⟨[], .error (.errorString "no task details found")⟩
          | task :: _ =>
            match task.ContainerInstanceArn with
            | none => ⟨[], .error (.errorString "no container instance found for task")⟩
            | some containerInstanceArn =>
              containerStage w verbose selectedCluster containerInstanceArn task.Containers))

/-- Lines 119-169: "Get tasks for the selected service" and the task selection. -/
def taskStage (w : World) (verbose : Bool) (selectedCluster selectedService : String) : Run :=
  Run.after [.listTasks selectedCluster selectedService]
    (match w.ListTasks selectedCluster selectedService with
     | .error err => ⟨[], .error (Errorf_w "failed to list tasks: " err)⟩
     | .ok taskArns =>
       Run.after (timing verbose "List tasks")
         (match taskArns with
          | [] => ⟨[.printWarning "No tasks found for this service"], .ok⟩
          | [selectedTask] =>
            Run.after [.printInfo ("Using task: " ++ selectedTask)]
              (describeStage w verbose selectedCluster selectedTask)
          | t₁ :: t₂ :: rest =>
            Run.after [.prompt "Select task" (taskNames (t₁ :: t₂ :: rest))]
              (match w.promptRun "Select task" (taskNames (t₁ :: t₂ :: rest)) with
               | .error err => ⟨[], .error (Errorf_w "task selection cancelled: " err)⟩
               | .ok (taskIndex, _) =>
                 match (t₁ :: t₂ :: rest)[taskIndex]? with
                 | none => ⟨[], .panic⟩
                 | some selectedTask =>
                   Run.after [.printInfo ("Selected task: " ++ selectedTask)]
                     (describeStage w verbose selectedCluster selectedTask))))

/-- Lines 80-117: "Get services in the selected cluster" and the service selection. -/
def serviceStage (w : World) (verbose : Bool) (selectedCluster : String) : Run :=
  Run.after [.listServices selectedCluster]
    (match w.ListServices selectedCluster with
     | .error err => ⟨[], .error (Errorf_w "failed to list services: " err)⟩
     | .ok serviceArns =>
       Run.after (timing verbose "List services")
         (match serviceArns with
          | [] => ⟨[.printWarning "No services found in this cluster"], .ok⟩
          | s :: rest =>
            Run.after [.prompt "Select service" (serviceNames (s :: rest))]
              (match w.promptRun "Select service" (serviceNames (s :: rest)) with
               | .error err => ⟨[], .error (Errorf_w "service selection cancelled: " err)⟩
               | .ok (_, selectedService) =>
                 Run.after [.printInfo ("Selected service: " ++ selectedService)]
                   (taskStage w verbose selectedCluster selectedService))))

/-- Lines 43-78: "Get clusters" and the cluster selection. -/
def clusterStage (w : World) (verbose : Bool) : Run :=
  Run.after [.listClusters]
    (match w.ListClusters with
     | .error err => ⟨[], .error (Errorf_w "failed to list clusters: " err)⟩
     | .ok clusterArns =>
       Run.after (timing verbose "List clusters")
         (match clusterArns with
          | [] => ⟨[.printWarning "No clusters found"], .ok⟩
          | c :: rest =>
            Run.after [.prompt "Select cluster" (clusterNames (c :: rest))]
              (match w.promptRun "Select cluster" (clusterNames (c :: rest)) with
               | .error err => ⟨[], .error (Errorf_w "cluster selection cancelled: " err)⟩
               | .ok (_, selectedCluster) =>
                 Run.after [.printInfo ("Selected cluster: " ++ selectedCluster)]
                   (serviceStage w verbose selectedCluster))))

/-- The function `RunE` of `containerConnectCmd`.  `h₁` answers the call of
`LoadAWSConfig` made inside `CheckAWSProfile`, `h₂` the call made by `RunE`. -/
def RunE (h₁ h₂ : CredHost) (a : AdvisorHost) (w : World) (profile : String) (verbose : Bool) :
    Run :=
  match CheckAWSProfile h₁ a profile with
  | (evs₁, some err) => ⟨evs₁, .error (Errorf_w "failed to configure AWS profile: " err)⟩
  | (evs₁, none) =>
    match LoadAWSConfig h₂ profile with
    | (evs₂, some err) =>
      ⟨evs₁ ++ timing verbose "AWS profile check" ++ evs₂,
        .error (Errorf_w "failed to load AWS config: " err)⟩
    | (evs₂, none) =>
      Run.after (evs₁ ++ timing verbose "AWS profile check" ++ evs₂) (clusterStage w verbose)

/-! ## Definitions that follow the words of the specification -/

/-- The final "/"-delimited segment of an identifier, as the specification
words it: the characters after the last "/", or the whole identifier when it
holds no "/". -/
def finalSegment (s : String) : String :=
  String.mk (s.data.reverse.takeWhile (fun c => c ≠ '/')).reverse

/-! ## Observations on a trace -/

/-- Is the event an invocation of the chooser under the given label. -/
def Event.isPromptFor (label : String) : Event → Bool
  | .prompt l _ => l == label
  | _ => false

/-- How many times the chooser is invoked under the given label. -/
def promptCount (label : String) (trace : List Event) : Nat :=
  trace.countP (Event.isPromptFor label)

/-- Is the event a call of the ECS API. -/
def Event.isApiCall : Event → Bool
  | .listClusters => true
  | .listServices _ => true
  | .listTasks _ _ => true
  | .describeTasks _ _ => true
  | .describeContainerInstances _ _ => true
  | _ => false

/-- The calls of the ECS API in a trace, in order. -/
def apiCalls (trace : List Event) : List Event :=
  trace.filter Event.isApiCall

/-- The child processes started in a trace, in order: program and arguments. -/
def execs (trace : List Event) : List (String × List String) :=
  trace.filterMap (fun e => match e with
    | .exec name args => some (name, args)
    | _ => none)

/-! ## Concrete hosts and worlds used to evaluate the command -/

/-- A machine on which `AWS_PROFILE` is set and the identity check succeeds. -/
def hostOk : CredHost :=
  { lookPathAssume := false
    assumeRun := fun _ => none
    envAWSProfile := "default"
    loadDefaultConfig := none
    getCallerIdentity := none }

def advisorPlain : AdvisorHost :=
  { statSsoDir := false, hostname := none, statUsrLocalAssume := false,
    statHomebrewAssume := false }

/-- A chooser whose user takes the first item. -/
def chooseFirst (_label : String) (items : List String) : Except GoError (Nat × String) :=
  match items with
  | [] => .error (.errorString "list is empty")
  | item :: _ => .ok (0, item)

/-- A chooser whose user takes the second item. -/
def chooseSecond (_label : String) (items : List String) : Except GoError (Nat × String) :=
  match items with
  | _ :: item :: _ => .ok (1, item)
  | _ => .error (.errorString "list is too short")

/-- A chooser whose user interrupts (the error `promptui.ErrInterrupt`). -/
def chooseInterrupt (_label : String) (_items : List String) : Except GoError (Nat × String) :=
  .error (.errorString "^C")

def instanceArn : String :=
  "arn:aws:ecs:eu-west-1:111122223333:container-instance/prod/ci-1"

/-- An account with one cluster `prod`, one service `api` and two tasks `t1`,
`t2`; `DescribeTasks` answers `tasks`. -/
def worldProd (tasks : List Task)
    (promptRun : String → List String → Except GoError (Nat × String)) : World :=
  { ListClusters := .ok ["arn:aws:ecs:eu-west-1:111122223333:cluster/prod"]
    ListServices := fun _ => .ok ["arn:aws:ecs:eu-west-1:111122223333:service/prod/api"]
    ListTasks := fun _ _ =>
      .ok ["arn:aws:ecs:eu-west-1:111122223333:task/prod/t1",
           "arn:aws:ecs:eu-west-1:111122223333:task/prod/t2"]
    DescribeTasks := fun _ _ => .ok tasks
    DescribeContainerInstances := fun _ _ => .ok [{ Ec2InstanceId := some "i-0abc" }]
    promptRun := promptRun
    awsRun := fun _ => none }

/-- A task on `instanceArn` with the given containers. -/
def taskWith (containers : List Container) : Task :=
  { ContainerInstanceArn := some instanceArn, Containers := containers }

/-- The account of `worldProd` with a single task `t1`. -/
def worldOneTask (tasks : List Task)
    (promptRun : String → List String → Except GoError (Nat × String)) : World :=
  { worldProd tasks promptRun with
    ListTasks := fun _ _ => .ok ["arn:aws:ecs:eu-west-1:111122223333:task/prod/t1"] }

/-- An account without clusters. -/
def worldNoClusters : World :=
  { worldProd [] chooseFirst with ListClusters := .ok [] }

/-- The account of `worldProd` whose service `api` has no task. -/
def worldNoTasks : World :=
  { worldProd [] chooseFirst with ListTasks := fun _ _ => .ok [] }

/-- A chooser whose user takes the second task and the first item elsewhere. -/
def chooseSecondTask (label : String) (items : List String) : Except GoError (Nat × String) :=
  if label = "Select task" then chooseSecond label items else chooseFirst label items

/-- A chooser whose user takes the second container and the first item elsewhere. -/
def chooseSecondContainer (label : String) (items : List String) :
    Except GoError (Nat × String) :=
  if label = "Select container" then chooseSecond label items else chooseFirst label items

/-- A machine without the helper tool and without `AWS_PROFILE`, on which the
identity check succeeds. -/
def hostNoHelper : CredHost :=
  { hostOk with envAWSProfile := "" }

/-- A machine on which the helper tool is installed and fails, without
`AWS_PROFILE`; the identity check succeeds. -/
def hostHelperFails : CredHost :=
  { lookPathAssume := true
    assumeRun := fun _ => some (.errorString "exit status 1", "no profile selected")
    envAWSProfile := ""
    loadDefaultConfig := none
    getCallerIdentity := none }

/-- A machine on which the identity check fails with an expired token. -/
def hostExpired : CredHost :=
  { hostOk with
    getCallerIdentity :=
      some (.errorString "operation error STS: GetCallerIdentity, ExpiredToken: token expired") }

/-- The five operations of the ECS API that `container connect` calls. -/
inductive Api where
  | ListClusters
  | ListServices
  | ListTasks
  | DescribeTasks
  | DescribeContainerInstances
  deriving DecidableEq, Repr

/-- Which operation of the ECS API an event is a call of, if any. -/
def Event.apiKind : Event → Option Api
  | .listClusters => some .ListClusters
  | .listServices _ => some .ListServices
  | .listTasks _ _ => some .ListTasks
  | .describeTasks _ _ => some .DescribeTasks
  | .describeContainerInstances _ _ => some .DescribeContainerInstances
  | _ => none

/-- The operations of the ECS API called in a trace, in order. -/
def apiKinds (trace : List Event) : List Api :=
  trace.filterMap Event.apiKind

/-- An account whose `ListServices` fails. -/
def worldServicesFail : World :=
  { worldProd [] chooseFirst with
    ListServices := fun _ => .error (.errorString "ThrottlingException: Rate exceeded") }

/-- The environment-specific block the specification assigns to the two
detection booleans: the corporate one when `corporate`, whatever `helper` is;
else the granted one when the helper tool is installed; else the standard one. -/
def environmentBlockSpec (corporate helper : Bool) : List Event :=
  match corporate, helper with
  | true, _ =>
    [.printf "  • Corporate environment detected\n",
     .printf "    • Use AWS SSO: aws sso login --profile <profile-name>\n",
     .printf "    • Use granted: assume <profile-name>\n",
     .printf "    • Contact your AWS administrator for SSO setup\n"]
  | false, true =>
    [.printf "  • Granted is available:\n",
     .printf "    • List profiles: assume\n",
     .printf "    • Use profile: assume <profile-name>\n",
     .printf "    • Or use with eaws: eaws --profile <profile-name> [command]\n"]
  | false, false =>
    [.printf "  • Standard AWS setup:\n",
     .printf "    • Configure credentials: aws configure\n",
     .printf "    • Use named profile: aws configure --profile <profile-name>\n",
     .printf "    • Set profile: export AWS_PROFILE=<profile-name>\n"]

/-- The troubleshooting block of the specification ("general troubleshooting
commands"), line by line. -/
def troubleshootingBlockSpec : List Event :=
  [.printf "\nTroubleshooting:\n",
   .printf "  • Check AWS configuration:\n",
   .printf "    • aws sts get-caller-identity\n",
   .printf "    • aws configure list\n",
   .printf "    • echo $AWS_PROFILE\n",
   .printf "  • Check AWS SSO (if using SSO):\n",
   .printf "    • aws sso login\n",
   .printf "    • aws configure sso\n",
   .printf "  • Check credentials location:\n",
   .printf "    • ~/.aws/credentials\n",
   .printf "    • ~/.aws/config\n"]

/-- The quick-fixes block of the specification (temporary static credentials,
local-development stand-ins, CI/CD IAM-role guidance), line by line. -/
def quickFixesBlockSpec : List Event :=
  [.printf "\nQuick fixes:\n",
   .printf "  • For immediate access:\n",
   .printf "    • Set temporary credentials:\n",
   .printf "      export AWS_ACCESS_KEY_ID=your_access_key\n",
   .printf "      export AWS_SECRET_ACCESS_KEY=your_secret_key\n",
   .printf "      export AWS_DEFAULT_REGION=us-east-1\n",
   .printf "  • For development:\n",
   .printf "    • Use LocalStack for local development\n",
   .printf "    • Use AWS CLI profiles for different environments\n",
   .printf "  • For CI/CD:\n",
   .printf "    • Use IAM roles for EC2/ECS/Lambda\n",
   .printf "    • Use environment variables in CI systems\n"]

/-- What the specification has the Setup Advisor print for the two detection
booleans: the title, then the three blocks in the order environment-specific,
troubleshooting, quick fixes. -/
def adviceSpec (corporate helper : Bool) : List Event :=
  [.printf "\nAWS Setup Instructions:\n"] ++
    (.printf "\nEnvironment-specific setup:\n" :: environmentBlockSpec corporate helper) ++
    troubleshootingBlockSpec ++ quickFixesBlockSpec

/-- A machine with an SSO directory under the home directory and no helper tool. -/
def advisorSso : AdvisorHost :=
  { statSsoDir := true, hostname := some "laptop", statUsrLocalAssume := false,
    statHomebrewAssume := false }

/-- A machine named in a corporate domain, with the helper tool installed. -/
def advisorCorpHost : AdvisorHost :=
  { statSsoDir := false, hostname := some "build01.corp.example.com",
    statUsrLocalAssume := false, statHomebrewAssume := true }

/-! ## `cmd/container_list.go` -/

/-- The loop "Extract service names and print them" of `container list`
(lines 82-88): one line for each ARN that passes the guard. -/
def printServiceNames (serviceArns : List String) : List Event :=
  serviceArns.foldl
    (fun lines serviceArn =>
      let parts := strings.Split serviceArn '/'
      if parts.length > 2 then lines ++ [.printf ("  â€¢ " ++ lastPart parts ++ "\n")]
      else lines)
    []

/-- Lines 34-90 of `container list`: from "Get clusters" to the end. -/
def listStage (w : World) : Run :=
  Run.after [.listClusters]
    (match w.ListClusters with
     | .error err => ⟨[], .error (Errorf_w "failed to list clusters: " err)⟩
     | .ok [] => ⟨[.printWarning "No clusters found"], .ok⟩
     | .ok (c :: rest) =>
       Run.after [.prompt "Select cluster" (clusterNames (c :: rest))]
         (match w.promptRun "Select cluster" (clusterNames (c :: rest)) with
          | .error err => ⟨[], .error (Errorf_w "cluster selection cancelled: " err)⟩
          | .ok (_, selectedCluster) =>
            Run.after
              [.printInfo ("Selected cluster: " ++ selectedCluster),
               .listServices selectedCluster]
              (match w.ListServices selectedCluster with
               | .error err => ⟨[], .error (Errorf_w "failed to list services: " err)⟩
               | .ok [] => ⟨[.printWarning "No services found in this cluster"], .ok⟩
               | .ok (s :: ss) =>
                 ⟨.printf "\nServices in cluster:\n" :: printServiceNames (s :: ss), .ok⟩)))

/-- The function `RunE` of `containerListCmd`. -/
def containerListRunE (h₁ h₂ : CredHost) (a : AdvisorHost) (w : World) (profile : String) :
    Run :=
  match CheckAWSProfile h₁ a profile with
  | (evs₁, some err) => ⟨evs₁, .error (Errorf_w "failed to configure AWS profile: " err)⟩
  | (evs₁, none) =>
    match LoadAWSConfig h₂ profile with
    | (evs₂, some err) => ⟨evs₁ ++ evs₂, .error (Errorf_w "failed to load AWS config: " err)⟩
    | (evs₂, none) => Run.after (evs₁ ++ evs₂) (listStage w)

/-- The account of `worldProd` whose only service has an ARN of the short
format, "arn:aws:ecs:region:account:service/name". -/
def worldShortServiceArn : World :=
  { worldProd [] chooseFirst with
    ListServices := fun _ => .ok ["arn:aws:ecs:eu-west-1:111122223333:service/api"] }

/-! ## Strings: what the search and the split compute -/

theorem containsChars_iff (needle hay : List Char) :
    containsChars needle hay = true ↔ needle <:+: hay := by
  induction hay with
  | nil => simp [containsChars, List.isPrefixOf_iff_prefix]
  | cons c cs ih =>
    simp only [containsChars, Bool.or_eq_true, List.isPrefixOf_iff_prefix, ih,
      List.infix_cons_iff]

/-- `strings.Contains s substr` holds exactly when the characters of `substr`
occur in `s` as a contiguous block. -/
theorem strings.Contains_iff (s substr : String) :
    strings.Contains s substr = true ↔ substr.data <:+: s.data :=
  containsChars_iff substr.data s.data

/-! ## C1, C2: classification of a failed identity check -/

theorem classifyIdentityError_eq (err : GoError) :
    classifyIdentityError err =
      .AWSAuthError
        (if "NoCredentialsError".data <:+: err.Error.data then msgNoCredentials
         else if "TokenRefreshRequired".data <:+: err.Error.data ∨
              "ExpiredToken".data <:+: err.Error.data then msgExpired
         else if "UnauthorizedOperation".data <:+: err.Error.data ∨
              "AccessDenied".data <:+: err.Error.data then msgInsufficient
         else msgGeneric)
        err := by
  simp only [classifyIdentityError, Bool.or_eq_true, strings.Contains_iff]
  split_ifs <;> rfl

/-- C2: the classification of a failed identity check is a total function of
the error text with precedence no-credentials, expired-token,
insufficient-permissions, generic; the four messages are pairwise distinct and
the original error is kept as `Cause`. -/
theorem verifyAWSCredentials_precedence (err : GoError) :
    verifyAWSCredentials (some err) =
      some (.AWSAuthError
        (if "NoCredentialsError".data <:+: err.Error.data then msgNoCredentials
         else if "TokenRefreshRequired".data <:+: err.Error.data ∨
              "ExpiredToken".data <:+: err.Error.data then msgExpired
         else if "UnauthorizedOperation".data <:+: err.Error.data ∨
              "AccessDenied".data <:+: err.Error.data then msgInsufficient
         else msgGeneric)
        err)
    ∧ [msgNoCredentials, msgExpired, msgInsufficient, msgGeneric].Nodup := by
  refine ⟨?_, by decide⟩
  simp only [verifyAWSCredentials, classifyIdentityError_eq]

/-- C1 (as stated, refuted): the text "NoCredentialsError: ExpiredToken" contains
"ExpiredToken", and the error returned for it is the no-credentials one, not
the expired-token one. -/
theorem expiredToken_with_noCredentials :
    "ExpiredToken".data <:+: (GoError.errorString "NoCredentialsError: ExpiredToken").Error.data
    ∧ verifyAWSCredentials (some (.errorString "NoCredentialsError: ExpiredToken")) =
        some (.AWSAuthError msgNoCredentials (.errorString "NoCredentialsError: ExpiredToken"))
    ∧ verifyAWSCredentials (some (.errorString "NoCredentialsError: ExpiredToken")) ≠
        some (.AWSAuthError msgExpired (.errorString "NoCredentialsError: ExpiredToken")) := by
  decide

/-- C1 (amended): an error text that contains "ExpiredToken" and does not
contain "NoCredentialsError" is classified as expired-token, whatever else it
contains. -/
theorem expiredToken_classified_expired (err : GoError)
    (hexp : "ExpiredToken".data <:+: err.Error.data)
    (hno : ¬ "NoCredentialsError".data <:+: err.Error.data) :
    verifyAWSCredentials (some err) = some (.AWSAuthError msgExpired err) := by
  simp only [verifyAWSCredentials, classifyIdentityError_eq, if_neg hno, if_pos (Or.inr hexp)]

theorem expiredToken_classified_expired_witness :
    "ExpiredToken".data <:+:
        (GoError.errorString "AccessDenied: ExpiredToken: token is expired").Error.data
    ∧ ¬ "NoCredentialsError".data <:+:
        (GoError.errorString "AccessDenied: ExpiredToken: token is expired").Error.data
    ∧ verifyAWSCredentials (some (.errorString "AccessDenied: ExpiredToken: token is expired")) =
        some (.AWSAuthError msgExpired
          (.errorString "AccessDenied: ExpiredToken: token is expired")) :=
  ⟨by decide, by decide,
    expiredToken_classified_expired (.errorString "AccessDenied: ExpiredToken: token is expired")
      (by decide) (by decide)⟩

/-! ## C7: display names -/

theorem splitChars_ne_nil (sep : Char) (l : List Char) : splitChars sep l ≠ [] := by
  induction l with
  | nil => simp [splitChars]
  | cons c cs ih =>
    unfold splitChars
    split_ifs
    · simp
    · cases h : splitChars sep cs <;> simp

theorem splitChars_of_not_mem (sep : Char) (l : List Char) (h : sep ∉ l) :
    splitChars sep l = [l] := by
  induction l with
  | nil => rfl
  | cons c cs ih =>
    have hc : ¬ c = sep := fun e => h (by simp [e])
    have hcs : sep ∉ cs := fun m => h (List.mem_cons_of_mem _ m)
    simp [splitChars, hc, ih hcs]

theorem splitChars_length_of_mem (sep : Char) (l : List Char) (h : sep ∈ l) :
    1 < (splitChars sep l).length := by
  induction l with
  | nil => simp at h
  | cons c cs ih =>
    unfold splitChars
    by_cases hc : c = sep
    · have := List.length_pos.mpr (splitChars_ne_nil sep cs)
      simp only [hc, if_true, List.length_cons]
      omega
    · have hcs : sep ∈ cs := by
        rcases List.mem_cons.mp h with e | m
        · exact absurd e.symm hc
        · exact m
      have := ih hcs
      simp only [hc, if_false]
      cases hs : splitChars sep cs with
      | nil => simp [hs] at this
      | cons p ps => simpa [hs] using this

/-- The last piece of a split is a suffix of the text that holds no separator
and is either the whole text or preceded by a separator. -/
theorem splitChars_getLast (sep : Char) (l : List Char) :
    ∃ pre, l = pre ++ (splitChars sep l).getLastD [] ∧
      sep ∉ (splitChars sep l).getLastD [] ∧ (pre = [] ∨ pre.getLast? = some sep) := by
  induction l with
  | nil => exact ⟨[], by simp [splitChars]⟩
  | cons c cs ih =>
    obtain ⟨pre, hpre, hno, hsep⟩ := ih
    unfold splitChars
    by_cases hc : c = sep
    · simp only [hc, if_true]
      cases hs : splitChars sep cs with
      | nil => exact absurd hs (splitChars_ne_nil sep cs)
      | cons p ps =>
        rw [hs] at hpre hno
        refine ⟨sep :: pre, ?_, ?_, Or.inr ?_⟩
        · rw [List.getLastD_cons]
          simpa using hpre
        · rw [List.getLastD_cons]
          exact hno
        · rcases hsep with e | e
          · simp [e]
          · cases pre with
            | nil => simp at e
            | cons x xs => simpa [List.getLast?_cons_cons] using e
    · simp only [hc, if_false]
      cases hs : splitChars sep cs with
      | nil => exact absurd hs (splitChars_ne_nil sep cs)
      | cons p ps =>
        rw [hs] at hpre hno
        cases ps with
        | nil =>
          simp only [List.getLastD_cons, List.getLastD_nil] at hpre hno ⊢
          have hp : pre = [] := by
            rcases hsep with e | e
            · exact e
            · exfalso
              have hmem : sep ∈ pre := List.mem_of_getLast?_eq_some e
              have : sep ∈ cs := by rw [hpre]; exact List.mem_append_left _ hmem
              have hlen := splitChars_length_of_mem sep cs this
              simp [hs] at hlen
          subst hp
          refine ⟨[], by simpa using hpre, ?_, Or.inl rfl⟩
          intro hm
          rcases List.mem_cons.mp hm with e | m
          · exact hc e.symm
          · exact hno m
        | cons q qs =>
          simp only [List.getLastD_cons] at hpre hno ⊢
          refine ⟨c :: pre, by simpa using hpre, hno, Or.inr ?_⟩
          rcases hsep with e | e
          · subst e
            exfalso
            have hcs : sep ∉ cs := by rw [hpre]; simpa using hno
            have := splitChars_of_not_mem sep cs hcs
            rw [hs] at this
            simp at this
          · cases pre with
            | nil => simp at e
            | cons x xs => simpa [List.getLast?_cons_cons] using e

theorem getLastD_map_mk (ps : List (List Char)) (p : List Char) :
    (ps.map String.mk).getLastD (String.mk p) = String.mk (ps.getLastD p) := by
  induction ps generalizing p with
  | nil => rfl
  | cons q qs ih => simp only [List.map_cons, List.getLastD_cons, ih]

theorem lastPart_Split (s : String) (sep : Char) :
    lastPart (strings.Split s sep) = String.mk ((splitChars sep s.data).getLastD []) := by
  unfold lastPart strings.Split
  cases h : splitChars sep s.data with
  | nil => exact absurd h (splitChars_ne_nil sep s.data)
  | cons p ps => simp only [List.map_cons, List.getLastD_cons, getLastD_map_mk]

theorem Split_length (s : String) (sep : Char) :
    (strings.Split s sep).length = (splitChars sep s.data).length := by
  simp [strings.Split]

theorem takeWhile_append_stop {α : Type} (p : α → Bool) (a b : List α)
    (ha : ∀ x ∈ a, p x = true) (hb : b = [] ∨ ∃ y ys, b = y :: ys ∧ p y = false) :
    (a ++ b).takeWhile p = a := by
  induction a with
  | nil =>
    rcases hb with e | ⟨y, ys, e, hy⟩
    · simp [e]
    · simp [e, List.takeWhile_cons, hy]
  | cons x xs ih =>
    have hx : p x = true := ha x (List.mem_cons_self _ _)
    simp only [List.cons_append, List.takeWhile_cons, hx, if_true]
    rw [ih (fun z hz => ha z (List.mem_cons_of_mem _ hz))]

/-- The last piece of the split at "/" is the final segment of the specification. -/
theorem getLastD_splitChars_eq (s : String) :
    String.mk ((splitChars '/' s.data).getLastD []) = finalSegment s := by
  obtain ⟨pre, hpre, hno, hsep⟩ := splitChars_getLast '/' s.data
  unfold finalSegment
  congr 1
  generalize (splitChars '/' s.data).getLastD [] = last at hpre hno
  rw [hpre, List.reverse_append, takeWhile_append_stop, List.reverse_reverse]
  · intro x hx
    have hx' : x ∈ last := List.mem_reverse.mp hx
    simp only [ne_eq, decide_not, Bool.not_eq_true', decide_eq_false_iff_not]
    intro e
    exact hno (e ▸ hx')
  · rcases hsep with e | e
    · left; simp [e]
    · right
      obtain ⟨ys, hys⟩ := List.getLast?_eq_some_iff.mp e
      exact ⟨'/', ys.reverse, by simp [hys], by simp⟩

theorem finalSegment_no_slash (s : String) : '/' ∉ (finalSegment s).data := by
  intro h
  simp only [finalSegment, List.mem_reverse] at h
  have := List.mem_takeWhile_imp h
  simp at this

theorem taskName_eq (taskArn : String) : taskName taskArn = finalSegment taskArn := by
  unfold taskName
  simp only [Split_length, lastPart_Split, getLastD_splitChars_eq]
  split_ifs with h
  · rfl
  · have hno : '/' ∉ taskArn.data := fun hm => h (splitChars_length_of_mem '/' _ hm)
    rw [← getLastD_splitChars_eq, splitChars_of_not_mem '/' _ hno]
    rfl

theorem finalSegment_idem (s : String) : finalSegment (finalSegment s) = finalSegment s := by
  rw [← getLastD_splitChars_eq (finalSegment s),
    splitChars_of_not_mem '/' _ (finalSegment_no_slash s)]
  rfl

theorem foldl_append_single {α β : Type} (f : α → List β) (l : List α) (init : List β) :
    l.foldl (fun acc a => acc ++ f a) init = init ++ (l.map f).flatten := by
  induction l generalizing init with
  | nil => simp
  | cons a as ih => simp [ih, List.append_assoc]

theorem taskNames_eq (taskArns : List String) : taskNames taskArns = taskArns.map finalSegment := by
  unfold taskNames
  rw [foldl_append_single (fun a => [taskName a])]
  induction taskArns with
  | nil => rfl
  | cons a as ih => simpa [taskName_eq] using ih

theorem clusterNames_eq (clusterArns : List String) :
    clusterNames clusterArns =
      (clusterArns.filter (fun arn => decide ('/' ∈ arn.data))).map finalSegment := by
  unfold clusterNames
  have hbody : ∀ (names : List String) (arn : String),
      (if (strings.Split arn '/').length > 1 then names ++ [lastPart (strings.Split arn '/')]
        else names) =
      names ++ (if '/' ∈ arn.data then [finalSegment arn] else []) := by
    intro names arn
    simp only [Split_length, lastPart_Split, getLastD_splitChars_eq]
    by_cases hm : '/' ∈ arn.data
    · simp [hm, splitChars_length_of_mem '/' _ hm]
    · simp [hm, splitChars_of_not_mem '/' _ hm]
  simp only [hbody]
  rw [foldl_append_single (fun arn => if '/' ∈ arn.data then [finalSegment arn] else [])]
  induction clusterArns with
  | nil => rfl
  | cons a as ih =>
    by_cases hm : '/' ∈ a.data
    · simpa [hm, List.filter_cons] using ih
    · simpa [hm, List.filter_cons] using ih

/-- C7 (the code at the failing input): the final segment of "my-cluster" is
"my-cluster" and that of the short-format service ARN
"arn:aws:ecs:eu-west-1:111122223333:service/api" is "api", but the cluster
loop gives no name for the first and the service loop none for the second; so
the extraction does not return the final segment of every identifier and is
not idempotent on the name it extracts from
"arn:aws:ecs:region:acct:cluster/my-cluster". The task loop returns the final
segment of both. -/
theorem clusterNames_drops_extracted_name :
    clusterNames ["arn:aws:ecs:region:acct:cluster/my-cluster"] = ["my-cluster"]
    ∧ finalSegment "my-cluster" = "my-cluster"
    ∧ clusterNames ["my-cluster"] = []
    ∧ clusterNames (clusterNames ["arn:aws:ecs:region:acct:cluster/my-cluster"]) ≠
        clusterNames ["arn:aws:ecs:region:acct:cluster/my-cluster"]
    ∧ finalSegment "arn:aws:ecs:eu-west-1:111122223333:service/api" = "api"
    ∧ serviceNames ["arn:aws:ecs:eu-west-1:111122223333:service/api"] = []
    ∧ taskNames ["my-cluster", "arn:aws:ecs:eu-west-1:111122223333:service/api"] =
        ["my-cluster", "api"] := by
  decide

/-- What the name loops compute, identifier by identifier: the task loop
returns the final "/"-delimited segment of every identifier and is idempotent;
the cluster loop returns, in order, the final segments of exactly the
identifiers that contain a "/". -/
theorem displayNames_final_segment (clusterArns : List String) :
    clusterNames clusterArns =
      (clusterArns.filter (fun arn => decide ('/' ∈ arn.data))).map finalSegment
    ∧ (∀ taskArns : List String,
        taskNames taskArns = taskArns.map finalSegment
        ∧ taskNames (taskNames taskArns) = taskNames taskArns)
    ∧ (∀ arn : String, taskName arn = finalSegment arn ∧ taskName (taskName arn) = taskName arn) := by
  refine ⟨clusterNames_eq clusterArns, ?_, ?_⟩
  · intro taskArns
    refine ⟨taskNames_eq taskArns, ?_⟩
    simp only [taskNames_eq, List.map_map]
    apply List.map_congr_left
    intro a _
    exact finalSegment_idem a
  · intro arn
    simp only [taskName_eq, finalSegment_idem, and_self]

theorem displayNames_final_segment_witness :
    clusterNames ["arn:aws:ecs:region:acct:cluster/my-cluster", "my-cluster"] = ["my-cluster"]
    ∧ taskNames ["arn:aws:ecs:region:acct:task/service-name/task-id"] = ["task-id"]
    ∧ taskName "task-id" = "task-id" :=
  ⟨(displayNames_final_segment
      ["arn:aws:ecs:region:acct:cluster/my-cluster", "my-cluster"]).1.trans (by decide),
   ((displayNames_final_segment ["arn:aws:ecs:region:acct:cluster/my-cluster"]).2.1
     ["arn:aws:ecs:region:acct:task/service-name/task-id"]).1.trans (by decide),
   by decide⟩

/-! ## The pipeline: unfolding lemmas -/

@[simp] theorem Run.after_trace (evs : List Event) (r : Run) :
    (Run.after evs r).trace = evs ++ r.trace := rfl

@[simp] theorem Run.after_outcome (evs : List Event) (r : Run) :
    (Run.after evs r).outcome = r.outcome := rfl

theorem Run.after_after (evs₁ evs₂ : List Event) (r : Run) :
    Run.after evs₁ (Run.after evs₂ r) = Run.after (evs₁ ++ evs₂) r := by
  simp [Run.after, List.append_assoc]

@[simp] theorem promptCount_nil (label : String) : promptCount label [] = 0 := rfl

@[simp] theorem promptCount_append (label : String) (a b : List Event) :
    promptCount label (a ++ b) = promptCount label a + promptCount label b := by
  simp [promptCount, List.countP_append]

theorem promptCount_cons (label : String) (e : Event) (tr : List Event) :
    promptCount label (e :: tr) =
      (if Event.isPromptFor label e then 1 else 0) + promptCount label tr := by
  simp only [promptCount, List.countP_cons]
  split_ifs <;> omega

@[simp] theorem promptCount_timing (label : String) (verbose : Bool) (step : String) :
    promptCount label (timing verbose step) = 0 := by
  cases verbose <;> simp [timing, promptCount_cons, Event.isPromptFor]

@[simp] theorem execs_nil : execs [] = [] := rfl

theorem execs_cons (e : Event) (tr : List Event) :
    execs (e :: tr) =
      (match e with
        | .exec name args => [(name, args)]
        | _ => []) ++ execs tr := by
  cases e <;> simp [execs, List.filterMap_cons]

@[simp] theorem execs_append (a b : List Event) : execs (a ++ b) = execs a ++ execs b := by
  simp [execs, List.filterMap_append]

@[simp] theorem execs_timing (verbose : Bool) (step : String) :
    execs (timing verbose step) = [] := by
  cases verbose <;> simp [timing, execs_cons]

@[simp] theorem apiCalls_nil : apiCalls [] = [] := rfl

theorem apiCalls_cons (e : Event) (tr : List Event) :
    apiCalls (e :: tr) = (if Event.isApiCall e then [e] else []) ++ apiCalls tr := by
  simp only [apiCalls, List.filter_cons]
  split_ifs <;> simp

@[simp] theorem apiCalls_append (a b : List Event) :
    apiCalls (a ++ b) = apiCalls a ++ apiCalls b := by
  simp [apiCalls, List.filter_append]

@[simp] theorem apiCalls_timing (verbose : Bool) (step : String) :
    apiCalls (timing verbose step) = [] := by
  cases verbose <;> simp [timing, apiCalls_cons, Event.isApiCall]

theorem promptCount_sessionStage (label : String) (w : World) (verbose : Bool)
    (ec2InstanceId runtimeId : String) :
    promptCount label (sessionStage w verbose ec2InstanceId runtimeId).trace = 0 := by
  unfold sessionStage
  cases w.awsRun (ssmArgs ec2InstanceId runtimeId) <;>
    simp [promptCount_cons, Event.isPromptFor]

theorem promptCount_instanceStage (label : String) (w : World) (verbose : Bool)
    (selectedCluster containerInstanceArn runtimeId : String) :
    promptCount label
      (instanceStage w verbose selectedCluster containerInstanceArn runtimeId).trace = 0 := by
  unfold instanceStage
  rcases w.DescribeContainerInstances selectedCluster [containerInstanceArn] with
    err | (_ | ⟨⟨_ | ec2⟩, rest⟩) <;>
    simp [promptCount_sessionStage, promptCount_cons, Event.isPromptFor]

theorem promptCount_runtimeIdCheck (label : String) (w : World) (verbose : Bool)
    (selectedCluster containerInstanceArn : String) (c : Container) :
    promptCount label
      (runtimeIdCheck w verbose selectedCluster containerInstanceArn c).trace = 0 := by
  unfold runtimeIdCheck
  cases c.RuntimeId <;> simp [promptCount_instanceStage]

/-- The container stage invokes the chooser only under "Select container". -/
theorem promptCount_containerStage (label : String) (hl : label ≠ "Select container")
    (w : World) (verbose : Bool)
    (selectedCluster containerInstanceArn : String) (containers : List Container) :
    promptCount label
      (containerStage w verbose selectedCluster containerInstanceArn containers).trace = 0 := by
  have hl' : ¬ "Select container" = label := fun e => hl e.symm
  unfold containerStage
  split
  · simp
  · split <;> simp [promptCount_runtimeIdCheck, promptCount_cons, Event.isPromptFor]
  · simp only [Run.after_trace, promptCount_append, promptCount_cons, Event.isPromptFor,
      beq_iff_eq, hl', if_false, promptCount_nil, Nat.zero_add]
    split
    · simp
    · split
      · simp
      · split <;> simp [promptCount_runtimeIdCheck, promptCount_cons, Event.isPromptFor]

theorem promptCount_describeStage (label : String) (hl : label ≠ "Select container")
    (w : World) (verbose : Bool) (selectedCluster selectedTask : String) :
    promptCount label (describeStage w verbose selectedCluster selectedTask).trace = 0 := by
  unfold describeStage
  rcases w.DescribeTasks selectedCluster [selectedTask] with
    err | (_ | ⟨⟨_ | arn, containers⟩, rest⟩) <;>
    simp [promptCount_containerStage label hl, promptCount_cons, Event.isPromptFor]

/-- The task stage invokes the chooser only under "Select task" and "Select container". -/
theorem promptCount_taskStage (label : String) (hl : label ≠ "Select container")
    (ht : label ≠ "Select task")
    (w : World) (verbose : Bool) (selectedCluster selectedService : String) :
    promptCount label (taskStage w verbose selectedCluster selectedService).trace = 0 := by
  have ht' : ¬ "Select task" = label := fun e => ht e.symm
  unfold taskStage
  rcases w.ListTasks selectedCluster selectedService with err | (_ | ⟨t₁, _ | ⟨t₂, rest⟩⟩)
  · simp [promptCount_cons, Event.isPromptFor]
  · simp [promptCount_cons, Event.isPromptFor]
  · simp [promptCount_describeStage label hl, promptCount_cons, Event.isPromptFor]
  · simp only [Run.after_trace, promptCount_append, promptCount_cons, Event.isPromptFor,
      beq_iff_eq, ht', if_false, promptCount_nil, promptCount_timing, Nat.zero_add,
      Bool.false_eq_true]
    rcases w.promptRun "Select task" (taskNames (t₁ :: t₂ :: rest)) with err | ⟨taskIndex, _⟩
    · simp
    · simp only
      cases (t₁ :: t₂ :: rest)[taskIndex]? <;>
        simp [promptCount_describeStage label hl, promptCount_cons, Event.isPromptFor]

/-- The service stage invokes the chooser only under "Select service",
"Select task" and "Select container". -/
theorem promptCount_serviceStage (label : String) (hl : label ≠ "Select container")
    (ht : label ≠ "Select task") (hs : label ≠ "Select service")
    (w : World) (verbose : Bool) (selectedCluster : String) :
    promptCount label (serviceStage w verbose selectedCluster).trace = 0 := by
  have hs' : ¬ "Select service" = label := fun e => hs e.symm
  unfold serviceStage
  rcases w.ListServices selectedCluster with err | (_ | ⟨s, rest⟩)
  · simp [promptCount_cons, Event.isPromptFor]
  · simp [promptCount_cons, Event.isPromptFor]
  · simp only [Run.after_trace, promptCount_append, promptCount_cons, Event.isPromptFor,
      beq_iff_eq, hs', if_false, promptCount_nil, promptCount_timing, Nat.zero_add,
      Bool.false_eq_true]
    rcases w.promptRun "Select service" (serviceNames (s :: rest)) with err | ⟨_, sel⟩ <;>
      simp [promptCount_taskStage label hl ht, promptCount_cons, Event.isPromptFor]

/-! ## C3: a single candidate -/

/-- C3 (as stated, refuted): with one cluster `prod`, one service `api` and
two tasks, the chooser is invoked for the cluster and for the service, each
time on a list of one name. -/
theorem single_cluster_and_service_prompted :
    (worldProd [taskWith [⟨some "app", some "rt-1"⟩]] chooseFirst).ListClusters =
      .ok ["arn:aws:ecs:eu-west-1:111122223333:cluster/prod"]
    ∧ (worldProd [taskWith [⟨some "app", some "rt-1"⟩]] chooseFirst).ListServices "prod" =
      .ok ["arn:aws:ecs:eu-west-1:111122223333:service/prod/api"]
    ∧ RunE hostOk hostOk advisorPlain
        (worldProd [taskWith [⟨some "app", some "rt-1"⟩]] chooseFirst) "" false =
      ⟨[.loadDefaultConfig, .getCallerIdentity, .loadDefaultConfig, .getCallerIdentity,
        .listClusters,
        .prompt "Select cluster" ["prod"],
        .printInfo "Selected cluster: prod",
        .listServices "prod",
        .prompt "Select service" ["api"],
        .printInfo "Selected service: api",
        .listTasks "prod" "api",
        .prompt "Select task" ["t1", "t2"],
        .printInfo "Selected task: arn:aws:ecs:eu-west-1:111122223333:task/prod/t1",
        .describeTasks "prod" ["arn:aws:ecs:eu-west-1:111122223333:task/prod/t1"],
        .printInfo "Using container: app",
        .describeContainerInstances "prod" [instanceArn],
        .printInfo "EC2 Instance: i-0abc",
        .printInfo "Starting session with command: sudo docker exec -ti rt-1 sh",
        .printInfo "🚀 Connecting to container...",
        .exec "aws" ["ssm", "start-session", "--target", "i-0abc", "--document-name",
          "AWS-StartInteractiveCommand", "--parameters",
          "command=sudo docker exec -ti rt-1 sh"]],
       .ok⟩ :=
  ⟨rfl, rfl, by decide⟩

/-- C3 (amended): at the task stage and at the container stage a list of
exactly one candidate is used without invoking the chooser, and the sole
candidate is what the following step receives. -/
theorem single_task_and_container_autoselected (w : World) (verbose : Bool)
    (selectedCluster selectedService containerInstanceArn selectedTask name : String)
    (container : Container)
    (hT : w.ListTasks selectedCluster selectedService = .ok [selectedTask])
    (hN : container.Name = some name) :
    taskStage w verbose selectedCluster selectedService =
        Run.after
          ([.listTasks selectedCluster selectedService] ++ timing verbose "List tasks" ++
            [.printInfo ("Using task: " ++ selectedTask)])
          (describeStage w verbose selectedCluster selectedTask)
    ∧ (describeStage w verbose selectedCluster selectedTask).trace.head? =
        some (.describeTasks selectedCluster [selectedTask])
    ∧ promptCount "Select task" (taskStage w verbose selectedCluster selectedService).trace = 0
    ∧ containerStage w verbose selectedCluster containerInstanceArn [container] =
        Run.after [.printInfo ("Using container: " ++ name)]
          (runtimeIdCheck w verbose selectedCluster containerInstanceArn container)
    ∧ promptCount "Select container"
        (containerStage w verbose selectedCluster containerInstanceArn [container]).trace = 0 := by
  have h1 : taskStage w verbose selectedCluster selectedService =
        Run.after
          ([.listTasks selectedCluster selectedService] ++ timing verbose "List tasks" ++
            [.printInfo ("Using task: " ++ selectedTask)])
          (describeStage w verbose selectedCluster selectedTask) := by
    simp [taskStage, hT, Run.after, List.append_assoc]
  have h2 : containerStage w verbose selectedCluster containerInstanceArn [container] =
        Run.after [.printInfo ("Using container: " ++ name)]
          (runtimeIdCheck w verbose selectedCluster containerInstanceArn container) := by
    simp [containerStage, hN]
  refine ⟨h1, by simp [describeStage], ?_, h2, ?_⟩
  · rw [h1]
    simp [promptCount_describeStage, promptCount_cons, Event.isPromptFor]
  · rw [h2]
    simp [promptCount_runtimeIdCheck, promptCount_cons, Event.isPromptFor]

theorem single_task_and_container_autoselected_witness :
    (worldOneTask [taskWith [⟨some "app", some "rt-1"⟩]] chooseFirst).ListTasks "prod" "api" =
      .ok ["arn:aws:ecs:eu-west-1:111122223333:task/prod/t1"]
    ∧ promptCount "Select task"
        (taskStage (worldOneTask [taskWith [⟨some "app", some "rt-1"⟩]] chooseFirst) false
          "prod" "api").trace = 0
    ∧ promptCount "Select container"
        (containerStage (worldOneTask [taskWith [⟨some "app", some "rt-1"⟩]] chooseFirst) false
          "prod" instanceArn [⟨some "app", some "rt-1"⟩]).trace = 0
    ∧ apiCalls (taskStage (worldOneTask [taskWith [⟨some "app", some "rt-1"⟩]] chooseFirst) false
          "prod" "api").trace =
        [.listTasks "prod" "api",
         .describeTasks "prod" ["arn:aws:ecs:eu-west-1:111122223333:task/prod/t1"],
         .describeContainerInstances "prod" [instanceArn]] :=
  have h := single_task_and_container_autoselected
    (worldOneTask [taskWith [⟨some "app", some "rt-1"⟩]] chooseFirst) false
    "prod" "api" instanceArn "arn:aws:ecs:eu-west-1:111122223333:task/prod/t1" "app"
    ⟨some "app", some "rt-1"⟩ rfl rfl
  ⟨rfl, h.2.2.1, h.2.2.2.2, by decide⟩

/-! ## C4: an empty list -/

/-- C4 (as stated, refuted): when the described task has no container, the
command returns the error "no containers found in task" and prints no warning. -/
theorem empty_container_list_is_error :
    (taskWith []).Containers = []
    ∧ RunE hostOk hostOk advisorPlain (worldOneTask [taskWith []] chooseFirst) "" false =
      ⟨[.loadDefaultConfig, .getCallerIdentity, .loadDefaultConfig, .getCallerIdentity,
        .listClusters,
        .prompt "Select cluster" ["prod"],
        .printInfo "Selected cluster: prod",
        .listServices "prod",
        .prompt "Select service" ["api"],
        .printInfo "Selected service: api",
        .listTasks "prod" "api",
        .printInfo "Using task: arn:aws:ecs:eu-west-1:111122223333:task/prod/t1",
        .describeTasks "prod" ["arn:aws:ecs:eu-west-1:111122223333:task/prod/t1"]],
       .error (.errorString "no containers found in task")⟩
    ∧ (RunE hostOk hostOk advisorPlain (worldOneTask [taskWith []] chooseFirst) "" false).outcome
        ≠ .ok :=
  ⟨rfl, by decide, by decide⟩

/-- C4 (amended): an empty list of clusters, services or tasks ends the
command with success right after the warning of that stage; an empty list of
containers ends it with the error "no containers found in task"; in each case
nothing follows. -/
theorem empty_stage_ends_run (w : World) (verbose : Bool)
    (selectedCluster selectedService containerInstanceArn : String) :
    (w.ListClusters = .ok [] →
      clusterStage w verbose =
        ⟨[.listClusters] ++ timing verbose "List clusters" ++
          [.printWarning "No clusters found"], .ok⟩)
    ∧ (w.ListServices selectedCluster = .ok [] →
      serviceStage w verbose selectedCluster =
        ⟨[.listServices selectedCluster] ++ timing verbose "List services" ++
          [.printWarning "No services found in this cluster"], .ok⟩)
    ∧ (w.ListTasks selectedCluster selectedService = .ok [] →
      taskStage w verbose selectedCluster selectedService =
        ⟨[.listTasks selectedCluster selectedService] ++ timing verbose "List tasks" ++
          [.printWarning "No tasks found for this service"], .ok⟩)
    ∧ containerStage w verbose selectedCluster containerInstanceArn [] =
        ⟨[], .error (.errorString "no containers found in task")⟩ := by
  refine ⟨?_, ?_, ?_, rfl⟩
  · intro h
    simp [clusterStage, h, Run.after]
  · intro h
    simp [serviceStage, h, Run.after]
  · intro h
    simp [taskStage, h, Run.after]

theorem empty_stage_ends_run_witness :
    clusterStage worldNoClusters false =
      ⟨[.listClusters, .printWarning "No clusters found"], .ok⟩
    ∧ taskStage worldNoTasks true "prod" "api" =
      ⟨[.listTasks "prod" "api", .printInfo "✓ List tasks",
        .printWarning "No tasks found for this service"], .ok⟩
    ∧ RunE hostOk hostOk advisorPlain worldNoClusters "" false =
      ⟨[.loadDefaultConfig, .getCallerIdentity, .loadDefaultConfig, .getCallerIdentity,
        .listClusters, .printWarning "No clusters found"], .ok⟩ :=
  ⟨(empty_stage_ends_run worldNoClusters false "prod" "api" instanceArn).1 rfl,
   (empty_stage_ends_run worldNoTasks true "prod" "api" instanceArn).2.2.1 rfl,
   by decide⟩

/-! ## The calls of the ECS API made from each stage on -/

theorem apiCalls_sessionStage (w : World) (verbose : Bool) (ec2InstanceId runtimeId : String) :
    apiCalls (sessionStage w verbose ec2InstanceId runtimeId).trace = [] := by
  unfold sessionStage
  cases w.awsRun (ssmArgs ec2InstanceId runtimeId) <;> simp [apiCalls_cons, Event.isApiCall]

theorem apiCalls_instanceStage (w : World) (verbose : Bool)
    (selectedCluster containerInstanceArn runtimeId : String) :
    apiCalls (instanceStage w verbose selectedCluster containerInstanceArn runtimeId).trace =
      [.describeContainerInstances selectedCluster [containerInstanceArn]] := by
  unfold instanceStage
  rcases w.DescribeContainerInstances selectedCluster [containerInstanceArn] with
    err | (_ | ⟨⟨_ | ec2⟩, rest⟩) <;>
    simp [apiCalls_sessionStage, apiCalls_cons, Event.isApiCall]

theorem apiCalls_runtimeIdCheck (w : World) (verbose : Bool)
    (selectedCluster containerInstanceArn : String) (c : Container) :
    apiCalls (runtimeIdCheck w verbose selectedCluster containerInstanceArn c).trace = []
    ∨ apiCalls (runtimeIdCheck w verbose selectedCluster containerInstanceArn c).trace =
        [.describeContainerInstances selectedCluster [containerInstanceArn]] := by
  unfold runtimeIdCheck
  cases c.RuntimeId <;> simp [apiCalls_instanceStage]

/-- From the container stage on, the only call that can follow is
`DescribeContainerInstances` on the selected cluster and the instance of the task. -/
theorem apiCalls_containerStage (w : World) (verbose : Bool)
    (selectedCluster containerInstanceArn : String) (containers : List Container) :
    apiCalls (containerStage w verbose selectedCluster containerInstanceArn containers).trace = []
    ∨ apiCalls (containerStage w verbose selectedCluster containerInstanceArn containers).trace =
        [.describeContainerInstances selectedCluster [containerInstanceArn]] := by
  rcases containers with _ | ⟨c₁, _ | ⟨c₂, rest⟩⟩
  · simp [containerStage]
  · simp only [containerStage]
    cases c₁.Name with
    | none => simp
    | some name =>
      rcases apiCalls_runtimeIdCheck w verbose selectedCluster containerInstanceArn c₁ with h | h
        <;> simp [apiCalls_cons, Event.isApiCall, h]
  · simp only [containerStage]
    rcases w.promptRun "Select container" _ with err | ⟨_, sel⟩
    · simp [apiCalls_cons, Event.isApiCall]
    · simp only
      cases findContainer (c₁ :: c₂ :: rest) sel with
      | none => simp [apiCalls_cons, Event.isApiCall]
      | some c =>
        simp only
        cases c.Name with
        | none => simp [apiCalls_cons, Event.isApiCall]
        | some name =>
          rcases apiCalls_runtimeIdCheck w verbose selectedCluster containerInstanceArn c
            with h | h <;> simp [apiCalls_cons, Event.isApiCall, h]

/-- From the describe step on: `DescribeTasks` on the selected cluster and the
selected task, then at most `DescribeContainerInstances` on the same cluster. -/
theorem apiCalls_describeStage (w : World) (verbose : Bool)
    (selectedCluster selectedTask : String) :
    ∃ tail, apiCalls (describeStage w verbose selectedCluster selectedTask).trace =
        .describeTasks selectedCluster [selectedTask] :: tail
      ∧ (tail = [] ∨ ∃ arn, tail = [.describeContainerInstances selectedCluster [arn]]) := by
  unfold describeStage
  rcases w.DescribeTasks selectedCluster [selectedTask] with
    err | (_ | ⟨⟨_ | arn, containers⟩, rest⟩)
  · exact ⟨[], by simp [apiCalls_cons, Event.isApiCall], Or.inl rfl⟩
  · exact ⟨[], by simp [apiCalls_cons, Event.isApiCall], Or.inl rfl⟩
  · exact ⟨[], by simp [apiCalls_cons, Event.isApiCall], Or.inl rfl⟩
  · rcases apiCalls_containerStage w verbose selectedCluster arn containers with h | h
    · exact ⟨[], by simp [apiCalls_cons, Event.isApiCall, h], Or.inl rfl⟩
    · exact ⟨_, by simp [apiCalls_cons, Event.isApiCall, h], Or.inr ⟨arn, rfl⟩⟩

/-! ## One step of each selecting stage -/

theorem clusterStage_chosen (w : World) (verbose : Bool) (c : String) (cs : List String)
    (i : Nat) (selectedCluster : String)
    (hC : w.ListClusters = .ok (c :: cs))
    (hP : w.promptRun "Select cluster" (clusterNames (c :: cs)) = .ok (i, selectedCluster)) :
    clusterStage w verbose =
      Run.after
        ([.listClusters] ++ timing verbose "List clusters" ++
          [.prompt "Select cluster" (clusterNames (c :: cs)),
           .printInfo ("Selected cluster: " ++ selectedCluster)])
        (serviceStage w verbose selectedCluster) := by
  simp [clusterStage, hC, hP, Run.after, List.append_assoc]

theorem serviceStage_chosen (w : World) (verbose : Bool) (selectedCluster s : String)
    (ss : List String) (j : Nat) (selectedService : String)
    (hS : w.ListServices selectedCluster = .ok (s :: ss))
    (hP : w.promptRun "Select service" (serviceNames (s :: ss)) = .ok (j, selectedService)) :
    serviceStage w verbose selectedCluster =
      Run.after
        ([.listServices selectedCluster] ++ timing verbose "List services" ++
          [.prompt "Select service" (serviceNames (s :: ss)),
           .printInfo ("Selected service: " ++ selectedService)])
        (taskStage w verbose selectedCluster selectedService) := by
  simp [serviceStage, hS, hP, Run.after, List.append_assoc]

theorem taskStage_chosen (w : World) (verbose : Bool) (selectedCluster selectedService : String)
    (t₁ t₂ : String) (rest : List String) (k : Nat) (name selectedTask : String)
    (hT : w.ListTasks selectedCluster selectedService = .ok (t₁ :: t₂ :: rest))
    (hP : w.promptRun "Select task" (taskNames (t₁ :: t₂ :: rest)) = .ok (k, name))
    (hk : (t₁ :: t₂ :: rest)[k]? = some selectedTask) :
    taskStage w verbose selectedCluster selectedService =
      Run.after
        ([.listTasks selectedCluster selectedService] ++ timing verbose "List tasks" ++
          [.prompt "Select task" (taskNames (t₁ :: t₂ :: rest)),
           .printInfo ("Selected task: " ++ selectedTask)])
        (describeStage w verbose selectedCluster selectedTask) := by
  simp only [taskStage, hT, hP, hk, Run.after, List.append_assoc, List.cons_append,
    List.nil_append]

/-! ## C5: what is threaded to the next call -/

/-- C5 (as stated, refuted): the cluster the API returned is
"arn:aws:ecs:eu-west-1:111122223333:cluster/prod"; the calls that follow are
made with the display names "prod" and "api", and with the full ARN of the task. -/
theorem display_names_threaded :
    (worldProd [taskWith [⟨some "app", some "rt-1"⟩]] chooseFirst).ListClusters =
      .ok ["arn:aws:ecs:eu-west-1:111122223333:cluster/prod"]
    ∧ apiCalls (RunE hostOk hostOk advisorPlain
        (worldProd [taskWith [⟨some "app", some "rt-1"⟩]] chooseFirst) "" false).trace =
      [.listClusters,
       .listServices "prod",
       .listTasks "prod" "api",
       .describeTasks "prod" ["arn:aws:ecs:eu-west-1:111122223333:task/prod/t1"],
       .describeContainerInstances "prod" [instanceArn]]
    ∧ Event.listServices "arn:aws:ecs:eu-west-1:111122223333:cluster/prod" ∉
        (RunE hostOk hostOk advisorPlain
          (worldProd [taskWith [⟨some "app", some "rt-1"⟩]] chooseFirst) "" false).trace :=
  ⟨rfl, by decide, by decide⟩

/-- C5 (amended): the chooser is shown display names at every stage; the
cluster and the service passed to the later calls are the display names the
chooser returned, and the task passed to `DescribeTasks` is the full ARN the
API returned at the chosen position. -/
theorem selection_threading (w : World) (verbose : Bool)
    (c : String) (cs : List String) (i : Nat) (selectedCluster : String)
    (s : String) (ss : List String) (j : Nat) (selectedService : String)
    (t₁ t₂ : String) (rest : List String) (k : Nat) (name selectedTask : String)
    (hC : w.ListClusters = .ok (c :: cs))
    (hPC : w.promptRun "Select cluster" (clusterNames (c :: cs)) = .ok (i, selectedCluster))
    (hS : w.ListServices selectedCluster = .ok (s :: ss))
    (hPS : w.promptRun "Select service" (serviceNames (s :: ss)) = .ok (j, selectedService))
    (hT : w.ListTasks selectedCluster selectedService = .ok (t₁ :: t₂ :: rest))
    (hPT : w.promptRun "Select task" (taskNames (t₁ :: t₂ :: rest)) = .ok (k, name))
    (hk : (t₁ :: t₂ :: rest)[k]? = some selectedTask) :
    clusterStage w verbose =
      Run.after
        ([.listClusters] ++ timing verbose "List clusters" ++
          [.prompt "Select cluster" (clusterNames (c :: cs)),
           .printInfo ("Selected cluster: " ++ selectedCluster),
           .listServices selectedCluster] ++ timing verbose "List services" ++
          [.prompt "Select service" (serviceNames (s :: ss)),
           .printInfo ("Selected service: " ++ selectedService),
           .listTasks selectedCluster selectedService] ++ timing verbose "List tasks" ++
          [.prompt "Select task" (taskNames (t₁ :: t₂ :: rest)),
           .printInfo ("Selected task: " ++ selectedTask)])
        (describeStage w verbose selectedCluster selectedTask)
    ∧ ∃ tail,
        apiCalls (clusterStage w verbose).trace =
          [.listClusters,
           .listServices selectedCluster,
           .listTasks selectedCluster selectedService,
           .describeTasks selectedCluster [selectedTask]] ++ tail
        ∧ (tail = [] ∨ ∃ arn, tail = [.describeContainerInstances selectedCluster [arn]]) := by
  have hrun : clusterStage w verbose =
      Run.after
        ([.listClusters] ++ timing verbose "List clusters" ++
          [.prompt "Select cluster" (clusterNames (c :: cs)),
           .printInfo ("Selected cluster: " ++ selectedCluster),
           .listServices selectedCluster] ++ timing verbose "List services" ++
          [.prompt "Select service" (serviceNames (s :: ss)),
           .printInfo ("Selected service: " ++ selectedService),
           .listTasks selectedCluster selectedService] ++ timing verbose "List tasks" ++
          [.prompt "Select task" (taskNames (t₁ :: t₂ :: rest)),
           .printInfo ("Selected task: " ++ selectedTask)])
        (describeStage w verbose selectedCluster selectedTask) := by
    rw [clusterStage_chosen w verbose c cs i selectedCluster hC hPC,
      serviceStage_chosen w verbose selectedCluster s ss j selectedService hS hPS,
      taskStage_chosen w verbose selectedCluster selectedService t₁ t₂ rest k name selectedTask
        hT hPT hk]
    simp [Run.after, List.append_assoc]
  refine ⟨hrun, ?_⟩
  obtain ⟨tail, htail, hshape⟩ := apiCalls_describeStage w verbose selectedCluster selectedTask
  refine ⟨tail, ?_, hshape⟩
  rw [hrun]
  simp [apiCalls_cons, Event.isApiCall, htail]

theorem selection_threading_witness :
    clusterStage (worldProd [taskWith [⟨some "app", some "rt-1"⟩]] chooseSecondTask) false =
      Run.after
        [.listClusters,
         .prompt "Select cluster" ["prod"],
         .printInfo "Selected cluster: prod",
         .listServices "prod",
         .prompt "Select service" ["api"],
         .printInfo "Selected service: api",
         .listTasks "prod" "api",
         .prompt "Select task" ["t1", "t2"],
         .printInfo "Selected task: arn:aws:ecs:eu-west-1:111122223333:task/prod/t2"]
        (describeStage (worldProd [taskWith [⟨some "app", some "rt-1"⟩]] chooseSecondTask) false
          "prod" "arn:aws:ecs:eu-west-1:111122223333:task/prod/t2") :=
  (selection_threading (worldProd [taskWith [⟨some "app", some "rt-1"⟩]] chooseSecondTask) false
    "arn:aws:ecs:eu-west-1:111122223333:cluster/prod" [] 0 "prod"
    "arn:aws:ecs:eu-west-1:111122223333:service/prod/api" [] 0 "api"
    "arn:aws:ecs:eu-west-1:111122223333:task/prod/t1"
    "arn:aws:ecs:eu-west-1:111122223333:task/prod/t2" [] 1 "t2"
    "arn:aws:ecs:eu-west-1:111122223333:task/prod/t2"
    rfl (by decide) rfl (by decide) rfl (by decide) rfl).1

/-! ## C6: the runtime id of the chosen container -/

/-- C6 (as stated, refuted): a task with one container whose runtime id is the
empty string passes the check; the session command is executed and the command
returns success. -/
theorem empty_runtimeId_starts_session :
    (Container.mk (some "app") (some "")).RuntimeId = some ""
    ∧ execs (RunE hostOk hostOk advisorPlain
        (worldOneTask [taskWith [⟨some "app", some ""⟩]] chooseFirst) "" false).trace =
      [("aws", ["ssm", "start-session", "--target", "i-0abc", "--document-name",
          "AWS-StartInteractiveCommand", "--parameters", "command=sudo docker exec -ti  sh"])]
    ∧ (RunE hostOk hostOk advisorPlain
        (worldOneTask [taskWith [⟨some "app", some ""⟩]] chooseFirst) "" false).outcome = .ok :=
  ⟨rfl, by decide, by decide⟩

/-- C6 (amended): if the chosen container has an absent runtime id, the
command returns the error "no runtime ID found for container" and nothing
follows the selection: no API call, no session command. -/
theorem absent_runtimeId_is_error (w : World) (verbose : Bool)
    (selectedCluster containerInstanceArn name : String) (container : Container)
    (hR : container.RuntimeId = none) (hN : container.Name = some name) :
    runtimeIdCheck w verbose selectedCluster containerInstanceArn container =
        ⟨[], .error (.errorString "no runtime ID found for container")⟩
    ∧ containerStage w verbose selectedCluster containerInstanceArn [container] =
        ⟨[.printInfo ("Using container: " ++ name)],
          .error (.errorString "no runtime ID found for container")⟩
    ∧ ∀ (c₁ c₂ : Container) (rest : List Container) (i : Nat) (selectedContainerName : String),
        w.promptRun "Select container" (containerNames (c₁ :: c₂ :: rest)) =
          .ok (i, selectedContainerName) →
        findContainer (c₁ :: c₂ :: rest) selectedContainerName = some container →
        containerStage w verbose selectedCluster containerInstanceArn (c₁ :: c₂ :: rest) =
          ⟨[.prompt "Select container" (containerNames (c₁ :: c₂ :: rest)),
            .printInfo ("Selected container: " ++ name)],
           .error (.errorString "no runtime ID found for container")⟩ := by
  have h0 : runtimeIdCheck w verbose selectedCluster containerInstanceArn container =
      ⟨[], .error (.errorString "no runtime ID found for container")⟩ := by
    simp [runtimeIdCheck, hR]
  refine ⟨h0, ?_, ?_⟩
  · simp [containerStage, hN, h0, Run.after]
  · intro c₁ c₂ rest i sel hP hF
    simp [containerStage, hP, hF, hN, h0, Run.after]

theorem absent_runtimeId_is_error_witness :
    (Container.mk (some "app") none).RuntimeId = none
    ∧ containerStage (worldOneTask [taskWith [⟨some "app", none⟩]] chooseFirst) false
        "prod" instanceArn [⟨some "app", none⟩] =
      ⟨[.printInfo "Using container: app"],
        .error (.errorString "no runtime ID found for container")⟩
    ∧ execs (RunE hostOk hostOk advisorPlain
        (worldOneTask [taskWith [⟨some "app", none⟩]] chooseFirst) "" false).trace = [] :=
  ⟨rfl,
   (absent_runtimeId_is_error (worldOneTask [taskWith [⟨some "app", none⟩]] chooseFirst) false
      "prod" instanceArn "app" ⟨some "app", none⟩ rfl rfl).2.1,
   by decide⟩

/-! ## C8: a cancelled selection -/

/-- C8 (as stated, refuted): when the chooser is interrupted at the cluster
stage the command returns an error, not success. -/
theorem cancelled_cluster_selection_fails :
    (worldProd [taskWith [⟨some "app", some "rt-1"⟩]] chooseInterrupt).promptRun
        "Select cluster" ["prod"] = .error (.errorString "^C")
    ∧ RunE hostOk hostOk advisorPlain
        (worldProd [taskWith [⟨some "app", some "rt-1"⟩]] chooseInterrupt) "" false =
      ⟨[.loadDefaultConfig, .getCallerIdentity, .loadDefaultConfig, .getCallerIdentity,
        .listClusters, .prompt "Select cluster" ["prod"]],
       .error (.wrapError "cluster selection cancelled: ^C" (.errorString "^C"))⟩
    ∧ (RunE hostOk hostOk advisorPlain
        (worldProd [taskWith [⟨some "app", some "rt-1"⟩]] chooseInterrupt) "" false).outcome
        ≠ .ok :=
  ⟨rfl, by decide, by decide⟩

/-- C8 (amended): when the chooser reports cancellation at a stage, the
command returns at once an error that wraps the chooser's error under the text
"<stage> selection cancelled: "; no API call and no session start follows. -/
theorem cancelled_selection_is_error (w : World) (verbose : Bool)
    (selectedCluster selectedService containerInstanceArn : String) (e : GoError) :
    (∀ c cs, w.ListClusters = .ok (c :: cs) →
      w.promptRun "Select cluster" (clusterNames (c :: cs)) = .error e →
      clusterStage w verbose =
        ⟨[.listClusters] ++ timing verbose "List clusters" ++
          [.prompt "Select cluster" (clusterNames (c :: cs))],
         .error (.wrapError ("cluster selection cancelled: " ++ e.Error) e)⟩)
    ∧ (∀ s ss, w.ListServices selectedCluster = .ok (s :: ss) →
      w.promptRun "Select service" (serviceNames (s :: ss)) = .error e →
      serviceStage w verbose selectedCluster =
        ⟨[.listServices selectedCluster] ++ timing verbose "List services" ++
          [.prompt "Select service" (serviceNames (s :: ss))],
         .error (.wrapError ("service selection cancelled: " ++ e.Error) e)⟩)
    ∧ (∀ t₁ t₂ rest, w.ListTasks selectedCluster selectedService = .ok (t₁ :: t₂ :: rest) →
      w.promptRun "Select task" (taskNames (t₁ :: t₂ :: rest)) = .error e →
      taskStage w verbose selectedCluster selectedService =
        ⟨[.listTasks selectedCluster selectedService] ++ timing verbose "List tasks" ++
          [.prompt "Select task" (taskNames (t₁ :: t₂ :: rest))],
         .error (.wrapError ("task selection cancelled: " ++ e.Error) e)⟩)
    ∧ (∀ c₁ c₂ rest,
      w.promptRun "Select container" (containerNames (c₁ :: c₂ :: rest)) = .error e →
      containerStage w verbose selectedCluster containerInstanceArn (c₁ :: c₂ :: rest) =
        ⟨[.prompt "Select container" (containerNames (c₁ :: c₂ :: rest))],
         .error (.wrapError ("container selection cancelled: " ++ e.Error) e)⟩) := by
  refine ⟨?_, ?_, ?_, ?_⟩
  · intro c cs hL hP
    simp [clusterStage, hL, hP, Run.after, Errorf_w]
  · intro s ss hL hP
    simp [serviceStage, hL, hP, Run.after, Errorf_w]
  · intro t₁ t₂ rest hL hP
    simp [taskStage, hL, hP, Run.after, Errorf_w]
  · intro c₁ c₂ rest hP
    simp [containerStage, hP, Run.after, Errorf_w]

theorem cancelled_selection_is_error_witness :
    clusterStage (worldProd [taskWith [⟨some "app", some "rt-1"⟩]] chooseInterrupt) true =
      ⟨[.listClusters, .printInfo "✓ List clusters", .prompt "Select cluster" ["prod"]],
       .error (.wrapError "cluster selection cancelled: ^C" (.errorString "^C"))⟩ :=
  (cancelled_selection_is_error (worldProd [taskWith [⟨some "app", some "rt-1"⟩]] chooseInterrupt)
    true "prod" "api" instanceArn (.errorString "^C")).1
    "arn:aws:ecs:eu-west-1:111122223333:cluster/prod" [] rfl (by decide)

/-! ## C9: the session command -/

theorem execs_sessionStage (w : World) (verbose : Bool) (ec2InstanceId runtimeId : String) :
    execs (sessionStage w verbose ec2InstanceId runtimeId).trace =
      [("aws", ssmArgs ec2InstanceId runtimeId)] := by
  unfold sessionStage
  cases w.awsRun (ssmArgs ec2InstanceId runtimeId) <;> simp [execs_cons]

/-- C9: the instance id returned by `DescribeContainerInstances` and the
runtime id of the selected container reach the session step unmodified; the
remote command is "sudo docker exec -ti <runtime id> sh" and the one child
process of the run is `aws` with the arguments ssm, start-session, --target,
the instance id, --document-name, AWS-StartInteractiveCommand, --parameters,
"command=" followed by the remote command. -/
theorem session_command_exact (w : World) (verbose : Bool)
    (selectedCluster containerInstanceArn runtimeId ec2InstanceId : String)
    (container : Container) (containerInstance : ContainerInstance)
    (others : List ContainerInstance)
    (hR : container.RuntimeId = some runtimeId)
    (hD : w.DescribeContainerInstances selectedCluster [containerInstanceArn] =
      .ok (containerInstance :: others))
    (hI : containerInstance.Ec2InstanceId = some ec2InstanceId) :
    runtimeIdCheck w verbose selectedCluster containerInstanceArn container =
        Run.after
          ([.describeContainerInstances selectedCluster [containerInstanceArn]] ++
            timing verbose "Describe container instance")
          (sessionStage w verbose ec2InstanceId runtimeId)
    ∧ sessionCommand runtimeId = "sudo docker exec -ti " ++ runtimeId ++ " sh"
    ∧ execs (runtimeIdCheck w verbose selectedCluster containerInstanceArn container).trace =
        [("aws",
          ["ssm", "start-session",
           "--target", ec2InstanceId,
           "--document-name", "AWS-StartInteractiveCommand",
           "--parameters", "command=" ++ ("sudo docker exec -ti " ++ runtimeId ++ " sh")])] := by
  have h : runtimeIdCheck w verbose selectedCluster containerInstanceArn container =
        Run.after
          ([.describeContainerInstances selectedCluster [containerInstanceArn]] ++
            timing verbose "Describe container instance")
          (sessionStage w verbose ec2InstanceId runtimeId) := by
    simp [runtimeIdCheck, instanceStage, hR, hD, hI, Run.after, List.append_assoc]
  refine ⟨h, rfl, ?_⟩
  rw [h]
  simp [execs_sessionStage, execs_cons, ssmArgs, sessionCommand]

theorem session_command_exact_witness :
    execs (runtimeIdCheck (worldOneTask [taskWith [⟨some "app", some "0f3a9c"⟩]] chooseFirst)
        false "prod" instanceArn ⟨some "app", some "0f3a9c"⟩).trace =
      [("aws",
        ["ssm", "start-session",
         "--target", "i-0abc",
         "--document-name", "AWS-StartInteractiveCommand",
         "--parameters", "command=" ++ ("sudo docker exec -ti " ++ "0f3a9c" ++ " sh")])] :=
  (session_command_exact (worldOneTask [taskWith [⟨some "app", some "0f3a9c"⟩]] chooseFirst)
    false "prod" instanceArn "0f3a9c" "i-0abc" ⟨some "app", some "0f3a9c"⟩
    ⟨some "i-0abc"⟩ [] rfl rfl rfl).2.2

/-! ## C10: two or more candidates -/

theorem containerNames_eq (containers : List Container) :
    containerNames containers = containers.filterMap (fun c => c.Name) := by
  unfold containerNames
  have hbody : ∀ (names : List String) (c : Container),
      (match c.Name with
        | some name => names ++ [name]
        | none => names) = names ++ (c.Name.toList) := by
    intro names c
    cases c.Name <;> simp
  simp only [hbody]
  rw [foldl_append_single (fun c : Container => c.Name.toList)]
  induction containers with
  | nil => rfl
  | cons c cs ih =>
    cases h : c.Name <;> simpa [h, List.filterMap_cons] using ih

/-- With pairwise distinct names, the container found by name is the one at
the chosen position among the containers that bear a name. -/
theorem findContainer_of_nodup (containers : List Container) (i : Nat) (sel : String)
    (hi : (containerNames containers)[i]? = some sel)
    (hnd : (containerNames containers).Nodup) :
    findContainer containers sel = (containers.filter (fun c => c.Name.isSome))[i]? := by
  rw [containerNames_eq] at hi hnd
  unfold findContainer
  induction containers generalizing i with
  | nil => simp at hi
  | cons c cs ih =>
    cases hN : c.Name with
    | none =>
      simp only [List.filterMap_cons, hN] at hi hnd
      simp only [List.find?_cons, hN, List.filter_cons, Option.isSome_none]
      simpa using ih i hi hnd
    | some n =>
      simp only [List.filterMap_cons, hN, List.nodup_cons] at hi hnd
      cases i with
      | zero =>
        simp only [List.getElem?_cons_zero, Option.some.injEq] at hi
        simp [List.find?_cons, hN, hi, List.filter_cons]
      | succ i' =>
        simp only [List.getElem?_cons_succ] at hi
        have hne : n ≠ sel := by
          intro e
          apply hnd.1
          rw [e]
          exact List.getElem?_mem hi
        have := ih i' hi hnd.2
        simp [List.find?_cons, hN, hne, List.filter_cons, this]

theorem promptCount_containerStage_many (w : World) (verbose : Bool)
    (selectedCluster containerInstanceArn : String) (c₁ c₂ : Container) (rest : List Container) :
    promptCount "Select container"
      (containerStage w verbose selectedCluster containerInstanceArn (c₁ :: c₂ :: rest)).trace
      = 1 := by
  simp only [containerStage]
  rcases w.promptRun "Select container" _ with err | ⟨_, sel⟩
  · simp [promptCount_cons, Event.isPromptFor]
  · simp only
    cases findContainer (c₁ :: c₂ :: rest) sel with
    | none => simp [promptCount_cons, Event.isPromptFor]
    | some c =>
      simp only
      cases c.Name <;> simp [promptCount_cons, Event.isPromptFor, promptCount_runtimeIdCheck]

theorem promptCount_taskStage_many (w : World) (verbose : Bool)
    (selectedCluster selectedService t₁ t₂ : String) (rest : List String)
    (hT : w.ListTasks selectedCluster selectedService = .ok (t₁ :: t₂ :: rest)) :
    promptCount "Select task" (taskStage w verbose selectedCluster selectedService).trace = 1 := by
  simp only [taskStage, hT]
  rcases w.promptRun "Select task" _ with err | ⟨k, _⟩
  · simp [promptCount_cons, Event.isPromptFor]
  · simp only
    cases (t₁ :: t₂ :: rest)[k]? <;>
      simp [promptCount_cons, Event.isPromptFor, promptCount_describeStage]

theorem promptCount_serviceStage_some (w : World) (verbose : Bool)
    (selectedCluster s : String) (ss : List String)
    (hS : w.ListServices selectedCluster = .ok (s :: ss)) :
    promptCount "Select service" (serviceStage w verbose selectedCluster).trace = 1 := by
  simp only [serviceStage, hS]
  rcases w.promptRun "Select service" _ with err | ⟨_, sel⟩ <;>
    simp [promptCount_cons, Event.isPromptFor, promptCount_taskStage]

theorem promptCount_clusterStage_some (w : World) (verbose : Bool)
    (c : String) (cs : List String) (hC : w.ListClusters = .ok (c :: cs)) :
    promptCount "Select cluster" (clusterStage w verbose).trace = 1 := by
  simp only [clusterStage, hC]
  rcases w.promptRun "Select cluster" _ with err | ⟨_, sel⟩ <;>
    simp [promptCount_cons, Event.isPromptFor, promptCount_serviceStage]

/-- C10 (as stated, refuted): with two containers that bear the same name, the
chooser returns position 1 and the session is started in the container at
position 0 (runtime id "rt-1"), not in the one at the chosen position ("rt-2"). -/
theorem same_name_selects_first_container :
    (worldOneTask [taskWith [⟨some "app", some "rt-1"⟩, ⟨some "app", some "rt-2"⟩]]
        chooseSecondContainer).promptRun "Select container"
        (containerNames [⟨some "app", some "rt-1"⟩, ⟨some "app", some "rt-2"⟩]) =
      .ok (1, "app")
    ∧ [Container.mk (some "app") (some "rt-1"), Container.mk (some "app") (some "rt-2")][1]? =
      some ⟨some "app", some "rt-2"⟩
    ∧ execs (RunE hostOk hostOk advisorPlain
        (worldOneTask [taskWith [⟨some "app", some "rt-1"⟩, ⟨some "app", some "rt-2"⟩]]
          chooseSecondContainer) "" false).trace =
      [("aws", ["ssm", "start-session", "--target", "i-0abc", "--document-name",
          "AWS-StartInteractiveCommand", "--parameters",
          "command=sudo docker exec -ti rt-1 sh"])] :=
  ⟨by decide, by decide, by decide⟩

/-- C10 (amended): when a stage has two or more candidates and the chooser
returns a choice, the chooser is invoked exactly once for that stage and the
next step is made with what was chosen: the chosen display name at the cluster
and service stages, the task ARN at the chosen position at the task stage, and,
when the container names are pairwise distinct, the container at the chosen
position among the named containers. -/
theorem chosen_candidate_threaded (w : World) (verbose : Bool)
    (selectedCluster selectedService containerInstanceArn : String) :
    (∀ c₁ c₂ cs i chosen,
      w.ListClusters = .ok (c₁ :: c₂ :: cs) →
      w.promptRun "Select cluster" (clusterNames (c₁ :: c₂ :: cs)) = .ok (i, chosen) →
      promptCount "Select cluster" (clusterStage w verbose).trace = 1
      ∧ clusterStage w verbose =
          Run.after
            ([.listClusters] ++ timing verbose "List clusters" ++
              [.prompt "Select cluster" (clusterNames (c₁ :: c₂ :: cs)),
               .printInfo ("Selected cluster: " ++ chosen)])
            (serviceStage w verbose chosen)
      ∧ (serviceStage w verbose chosen).trace.head? = some (.listServices chosen))
    ∧ (∀ s₁ s₂ ss j chosen,
      w.ListServices selectedCluster = .ok (s₁ :: s₂ :: ss) →
      w.promptRun "Select service" (serviceNames (s₁ :: s₂ :: ss)) = .ok (j, chosen) →
      promptCount "Select service" (serviceStage w verbose selectedCluster).trace = 1
      ∧ serviceStage w verbose selectedCluster =
          Run.after
            ([.listServices selectedCluster] ++ timing verbose "List services" ++
              [.prompt "Select service" (serviceNames (s₁ :: s₂ :: ss)),
               .printInfo ("Selected service: " ++ chosen)])
            (taskStage w verbose selectedCluster chosen)
      ∧ (taskStage w verbose selectedCluster chosen).trace.head? =
          some (.listTasks selectedCluster chosen))
    ∧ (∀ t₁ t₂ rest k name chosen,
      w.ListTasks selectedCluster selectedService = .ok (t₁ :: t₂ :: rest) →
      w.promptRun "Select task" (taskNames (t₁ :: t₂ :: rest)) = .ok (k, name) →
      (t₁ :: t₂ :: rest)[k]? = some chosen →
      promptCount "Select task" (taskStage w verbose selectedCluster selectedService).trace = 1
      ∧ taskStage w verbose selectedCluster selectedService =
          Run.after
            ([.listTasks selectedCluster selectedService] ++ timing verbose "List tasks" ++
              [.prompt "Select task" (taskNames (t₁ :: t₂ :: rest)),
               .printInfo ("Selected task: " ++ chosen)])
            (describeStage w verbose selectedCluster chosen)
      ∧ (describeStage w verbose selectedCluster chosen).trace.head? =
          some (.describeTasks selectedCluster [chosen]))
    ∧ (∀ c₁ c₂ rest i name chosen,
      w.promptRun "Select container" (containerNames (c₁ :: c₂ :: rest)) = .ok (i, name) →
      (containerNames (c₁ :: c₂ :: rest))[i]? = some name →
      (containerNames (c₁ :: c₂ :: rest)).Nodup →
      ((c₁ :: c₂ :: rest).filter (fun c => c.Name.isSome))[i]? = some chosen →
      promptCount "Select container"
        (containerStage w verbose selectedCluster containerInstanceArn (c₁ :: c₂ :: rest)).trace
        = 1
      ∧ containerStage w verbose selectedCluster containerInstanceArn (c₁ :: c₂ :: rest) =
          Run.after
            [.prompt "Select container" (containerNames (c₁ :: c₂ :: rest)),
             .printInfo ("Selected container: " ++ name)]
            (runtimeIdCheck w verbose selectedCluster containerInstanceArn chosen)) := by
  refine ⟨?_, ?_, ?_, ?_⟩
  · intro c₁ c₂ cs i chosen hL hP
    exact ⟨promptCount_clusterStage_some w verbose c₁ (c₂ :: cs) hL,
      clusterStage_chosen w verbose c₁ (c₂ :: cs) i chosen hL hP, by simp [serviceStage]⟩
  · intro s₁ s₂ ss j chosen hL hP
    exact ⟨promptCount_serviceStage_some w verbose selectedCluster s₁ (s₂ :: ss) hL,
      serviceStage_chosen w verbose selectedCluster s₁ (s₂ :: ss) j chosen hL hP,
      by simp [taskStage]⟩
  · intro t₁ t₂ rest k name chosen hL hP hk
    exact ⟨promptCount_taskStage_many w verbose selectedCluster selectedService t₁ t₂ rest hL,
      taskStage_chosen w verbose selectedCluster selectedService t₁ t₂ rest k name chosen
        hL hP hk,
      by simp [describeStage]⟩
  · intro c₁ c₂ rest i name chosen hP hi hnd hc
    refine ⟨promptCount_containerStage_many w verbose selectedCluster containerInstanceArn
      c₁ c₂ rest, ?_⟩
    have hF : findContainer (c₁ :: c₂ :: rest) name = some chosen := by
      rw [findContainer_of_nodup (c₁ :: c₂ :: rest) i name hi hnd, hc]
    have hName : chosen.Name = some name := by
      have := List.find?_some hF
      simpa using this
    simp [containerStage, hP, hF, hName, Run.after]

theorem chosen_candidate_threaded_witness :
    containerStage
        (worldOneTask [taskWith [⟨some "app", some "rt-1"⟩, ⟨some "sidecar", some "rt-2"⟩]]
          chooseSecondContainer)
        false "prod" instanceArn [⟨some "app", some "rt-1"⟩, ⟨some "sidecar", some "rt-2"⟩] =
      Run.after
        [.prompt "Select container" ["app", "sidecar"],
         .printInfo "Selected container: sidecar"]
        (runtimeIdCheck
          (worldOneTask [taskWith [⟨some "app", some "rt-1"⟩, ⟨some "sidecar", some "rt-2"⟩]]
            chooseSecondContainer)
          false "prod" instanceArn ⟨some "sidecar", some "rt-2"⟩) :=
  ((chosen_candidate_threaded
      (worldOneTask [taskWith [⟨some "app", some "rt-1"⟩, ⟨some "sidecar", some "rt-2"⟩]]
        chooseSecondContainer)
      false "prod" "api" instanceArn).2.2.2
    ⟨some "app", some "rt-1"⟩ ⟨some "sidecar", some "rt-2"⟩ [] 1 "sidecar"
    ⟨some "sidecar", some "rt-2"⟩ (by decide) (by decide) (by decide) (by decide)).2

/-! ## C11: what a run that starts a session has gone through -/

theorem mem_execs_instanceStage (w : World) (verbose : Bool)
    (selectedCluster containerInstanceArn runtimeId : String) (x : String × List String)
    (hx : x ∈ execs (instanceStage w verbose selectedCluster containerInstanceArn runtimeId).trace) :
    ∃ containerInstance others ec2InstanceId,
      w.DescribeContainerInstances selectedCluster [containerInstanceArn] =
        .ok (containerInstance :: others)
      ∧ containerInstance.Ec2InstanceId = some ec2InstanceId
      ∧ x = ("aws", ssmArgs ec2InstanceId runtimeId) := by
  unfold instanceStage at hx
  rcases hD : w.DescribeContainerInstances selectedCluster [containerInstanceArn] with
    err | (_ | ⟨⟨_ | ec2⟩, rest⟩)
  · simp [hD, execs_cons] at hx
  · simp [hD, execs_cons] at hx
  · simp [hD, execs_cons] at hx
  · simp only [hD, Run.after_trace, execs_append, execs_cons, execs_timing, execs_nil,
      execs_sessionStage, List.nil_append, List.mem_singleton] at hx
    exact ⟨⟨some ec2⟩, rest, ec2, rfl, rfl, hx⟩

theorem mem_execs_runtimeIdCheck (w : World) (verbose : Bool)
    (selectedCluster containerInstanceArn : String) (c : Container) (x : String × List String)
    (hx : x ∈ execs (runtimeIdCheck w verbose selectedCluster containerInstanceArn c).trace) :
    ∃ runtimeId containerInstance others ec2InstanceId,
      c.RuntimeId = some runtimeId
      ∧ w.DescribeContainerInstances selectedCluster [containerInstanceArn] =
        .ok (containerInstance :: others)
      ∧ containerInstance.Ec2InstanceId = some ec2InstanceId
      ∧ x = ("aws", ssmArgs ec2InstanceId runtimeId) := by
  unfold runtimeIdCheck at hx
  cases hR : c.RuntimeId with
  | none => simp [hR] at hx
  | some r =>
    simp only [hR] at hx
    obtain ⟨inst, others, ec2, h1, h2, h3⟩ :=
      mem_execs_instanceStage w verbose selectedCluster containerInstanceArn r x hx
    exact ⟨r, inst, others, ec2, rfl, h1, h2, h3⟩

theorem mem_execs_containerStage (w : World) (verbose : Bool)
    (selectedCluster containerInstanceArn : String) (containers : List Container)
    (x : String × List String)
    (hx : x ∈ execs
      (containerStage w verbose selectedCluster containerInstanceArn containers).trace) :
    ∃ c, c ∈ containers
      ∧ x ∈ execs (runtimeIdCheck w verbose selectedCluster containerInstanceArn c).trace := by
  rcases containers with _ | ⟨c₁, _ | ⟨c₂, rest⟩⟩
  · simp [containerStage] at hx
  · simp only [containerStage] at hx
    cases hN : c₁.Name with
    | none => simp [hN] at hx
    | some name =>
      simp only [hN, Run.after_trace, execs_append, execs_cons, execs_nil,
        List.nil_append] at hx
      exact ⟨c₁, List.mem_singleton.mpr rfl, hx⟩
  · simp only [containerStage] at hx
    rcases hP : w.promptRun "Select container" (containerNames (c₁ :: c₂ :: rest)) with
      err | ⟨_, sel⟩
    · simp [hP, execs_cons] at hx
    · simp only [hP] at hx
      cases hF : findContainer (c₁ :: c₂ :: rest) sel with
      | none => simp [hF, execs_cons] at hx
      | some c =>
        simp only [hF] at hx
        cases hN : c.Name with
        | none => simp [hN, execs_cons] at hx
        | some name =>
          simp only [hN, Run.after_trace, execs_append, execs_cons, execs_nil,
            List.nil_append, List.append_nil] at hx
          exact ⟨c, List.mem_of_find?_eq_some hF, hx⟩

theorem mem_execs_describeStage (w : World) (verbose : Bool)
    (selectedCluster selectedTask : String) (x : String × List String)
    (hx : x ∈ execs (describeStage w verbose selectedCluster selectedTask).trace) :
    ∃ task others containerInstanceArn,
      w.DescribeTasks selectedCluster [selectedTask] = .ok (task :: others)
      ∧ task.ContainerInstanceArn = some containerInstanceArn
      ∧ x ∈ execs
        (containerStage w verbose selectedCluster containerInstanceArn task.Containers).trace := by
  unfold describeStage at hx
  rcases hD : w.DescribeTasks selectedCluster [selectedTask] with
    err | (_ | ⟨task, rest⟩)
  · simp [hD, execs_cons] at hx
  · simp [hD, execs_cons] at hx
  · simp only [hD] at hx
    cases hA : task.ContainerInstanceArn with
    | none => simp [hA, execs_cons] at hx
    | some arn =>
      simp only [hA, Run.after_trace, execs_append, execs_cons, execs_timing, execs_nil,
        List.nil_append] at hx
      exact ⟨task, rest, arn, rfl, hA, hx⟩

theorem mem_execs_taskStage (w : World) (verbose : Bool)
    (selectedCluster selectedService : String) (x : String × List String)
    (hx : x ∈ execs (taskStage w verbose selectedCluster selectedService).trace) :
    ∃ taskArns selectedTask,
      w.ListTasks selectedCluster selectedService = .ok taskArns
      ∧ selectedTask ∈ taskArns
      ∧ x ∈ execs (describeStage w verbose selectedCluster selectedTask).trace := by
  unfold taskStage at hx
  rcases hL : w.ListTasks selectedCluster selectedService with
    err | (_ | ⟨t₁, _ | ⟨t₂, rest⟩⟩)
  · simp [hL, execs_cons] at hx
  · simp [hL, execs_cons] at hx
  · simp only [hL, Run.after_trace, execs_append, execs_cons, execs_timing, execs_nil,
      List.nil_append] at hx
    exact ⟨[t₁], t₁, rfl, List.mem_singleton.mpr rfl, hx⟩
  · simp only [hL] at hx
    rcases hP : w.promptRun "Select task" (taskNames (t₁ :: t₂ :: rest)) with err | ⟨k, name⟩
    · simp [hP, execs_cons] at hx
    · simp only [hP] at hx
      cases hk : (t₁ :: t₂ :: rest)[k]? with
      | none => simp [hk, execs_cons] at hx
      | some t =>
        simp only [hk, Run.after_trace, execs_append, execs_cons, execs_timing, execs_nil,
          List.nil_append] at hx
        exact ⟨t₁ :: t₂ :: rest, t, rfl, List.getElem?_mem hk, hx⟩

theorem mem_execs_serviceStage (w : World) (verbose : Bool)
    (selectedCluster : String) (x : String × List String)
    (hx : x ∈ execs (serviceStage w verbose selectedCluster).trace) :
    ∃ serviceArns j selectedService,
      w.ListServices selectedCluster = .ok serviceArns
      ∧ serviceArns ≠ []
      ∧ w.promptRun "Select service" (serviceNames serviceArns) = .ok (j, selectedService)
      ∧ x ∈ execs (taskStage w verbose selectedCluster selectedService).trace := by
  unfold serviceStage at hx
  rcases hL : w.ListServices selectedCluster with err | (_ | ⟨s, rest⟩)
  · simp [hL, execs_cons] at hx
  · simp [hL, execs_cons] at hx
  · simp only [hL] at hx
    rcases hP : w.promptRun "Select service" (serviceNames (s :: rest)) with err | ⟨j, sel⟩
    · simp [hP, execs_cons] at hx
    · simp only [hP, Run.after_trace, execs_append, execs_cons, execs_timing, execs_nil,
        List.nil_append] at hx
      exact ⟨s :: rest, j, sel, rfl, by simp, hP, hx⟩

theorem mem_execs_clusterStage (w : World) (verbose : Bool) (x : String × List String)
    (hx : x ∈ execs (clusterStage w verbose).trace) :
    ∃ clusterArns i selectedCluster,
      w.ListClusters = .ok clusterArns
      ∧ clusterArns ≠ []
      ∧ w.promptRun "Select cluster" (clusterNames clusterArns) = .ok (i, selectedCluster)
      ∧ x ∈ execs (serviceStage w verbose selectedCluster).trace := by
  unfold clusterStage at hx
  rcases hL : w.ListClusters with err | (_ | ⟨c, rest⟩)
  · simp [hL, execs_cons] at hx
  · simp [hL, execs_cons] at hx
  · simp only [hL] at hx
    rcases hP : w.promptRun "Select cluster" (clusterNames (c :: rest)) with err | ⟨i, sel⟩
    · simp [hP, execs_cons] at hx
    · simp only [hP, Run.after_trace, execs_append, execs_cons, execs_timing, execs_nil,
        List.nil_append] at hx
      exact ⟨c :: rest, i, sel, rfl, by simp, hP, hx⟩

/-! ### The credential gate starts no process but `assume` -/

theorem execs_PrintSetupInstructions (a : AdvisorHost) (err : GoError) :
    execs (PrintSetupInstructions a err) = [] := by
  unfold PrintSetupInstructions printEnvironmentSpecificInstructions
    printGeneralTroubleshooting printQuickFixes
  split_ifs <;> simp [execs_cons]

theorem execs_handleProfile (h : CredHost) (profile : String) (x : String × List String)
    (hx : x ∈ execs (handleProfile h profile).1) : x.1 = "assume" := by
  unfold handleProfile at hx
  split_ifs at hx with h1 h2
  · unfold setAWSProfile at hx
    split_ifs at hx
    · unfold runAssumeCommand at hx
      rcases hR : h.assumeRun [profile] with _ | ⟨err, msg⟩
      · simp [hR, execs_cons] at hx
        simp [hx]
      · simp only [hR] at hx
        split_ifs at hx <;> simp [execs_cons] at hx <;> simp [hx]
    · simp [execs_cons] at hx
  · unfold tryAssumeProfile at hx
    split_ifs at hx
    · rcases hR : h.assumeRun [] with _ | ⟨err, msg⟩
      · simp [hR, execs_cons] at hx
        simp [hx]
      · simp [hR, execs_cons] at hx
        simp [hx]
    · simp [execs_cons] at hx
  · simp at hx

theorem execs_LoadAWSConfig (h : CredHost) (profile : String) (x : String × List String)
    (hx : x ∈ execs (LoadAWSConfig h profile).1) : x.1 = "assume" := by
  have hp := execs_handleProfile h profile x
  unfold LoadAWSConfig at hx
  rcases hH : handleProfile h profile with ⟨evs, _ | err⟩
  · rw [hH] at hp
    simp only [hH] at hx
    cases hD : h.loadDefaultConfig with
    | some e =>
      simp [hD, execs_cons] at hx
      exact hp hx
    | none =>
      simp only [hD] at hx
      cases hV : verifyAWSCredentials h.getCallerIdentity <;>
        (simp [hV, execs_cons] at hx; exact hp hx)
  · rw [hH] at hp
    simp only [hH] at hx
    exact hp hx

theorem execs_CheckAWSProfile (h : CredHost) (a : AdvisorHost) (profile : String)
    (x : String × List String)
    (hx : x ∈ execs (CheckAWSProfile h a profile).1) : x.1 = "assume" := by
  have hp := execs_LoadAWSConfig h profile x
  unfold CheckAWSProfile at hx
  rcases hL : LoadAWSConfig h profile with ⟨evs, _ | err⟩
  · rw [hL] at hp
    simp only [hL] at hx
    exact hp hx
  · rw [hL] at hp
    simp only [hL] at hx
    cases hE : errorsAsAuthError err with
    | none =>
      simp only [hE] at hx
      exact hp hx
    | some authErr =>
      simp [hE, execs_cons, execs_PrintSetupInstructions] at hx
      exact hp hx

theorem mem_execs_RunE (h₁ h₂ : CredHost) (a : AdvisorHost) (w : World) (profile : String)
    (verbose : Bool) (args : List String)
    (hx : ("aws", args) ∈ execs (RunE h₁ h₂ a w profile verbose).trace) :
    ("aws", args) ∈ execs (clusterStage w verbose).trace := by
  have hne : ¬ ("aws" : String) = "assume" := by decide
  have h1 := execs_CheckAWSProfile h₁ a profile ("aws", args)
  have h2 := execs_LoadAWSConfig h₂ profile ("aws", args)
  unfold RunE at hx
  rcases hC : CheckAWSProfile h₁ a profile with ⟨evs₁, _ | err⟩
  · rw [hC] at h1
    simp only [hC] at hx
    rcases hL : LoadAWSConfig h₂ profile with ⟨evs₂, _ | err⟩
    · rw [hL] at h2
      simp only [hL, Run.after_trace, execs_append, execs_timing, List.append_nil,
        List.mem_append] at hx
      rcases hx with (hx | hx) | hx
      · exact absurd (h1 hx) hne
      · exact absurd (h2 hx) hne
      · exact hx
    · rw [hL] at h2
      simp only [hL, execs_append, execs_timing, List.append_nil, List.mem_append] at hx
      rcases hx with hx | hx
      · exact absurd (h1 hx) hne
      · exact absurd (h2 hx) hne
  · rw [hC] at h1
    simp only [hC] at hx
    exact absurd (h1 hx) hne

theorem mem_execs_iff (name : String) (args : List String) (tr : List Event) :
    (name, args) ∈ execs tr ↔ Event.exec name args ∈ tr := by
  induction tr with
  | nil => simp
  | cons e es ih =>
    rw [execs_cons, List.mem_append, ih, List.mem_cons]
    cases e <;> simp

/-- C11: the session command `aws ssm start-session ...` is executed only in
runs where the lists of clusters, services, tasks and containers were all
non-empty, the described task carried a container-instance reference, the
selected container carried a runtime id and `DescribeContainerInstances`
yielded an EC2 instance id; its arguments are built from those two values. -/
theorem session_only_after_resolution (h₁ h₂ : CredHost) (a : AdvisorHost) (w : World)
    (profile : String) (verbose : Bool) (args : List String)
    (hx : Event.exec "aws" args ∈ (RunE h₁ h₂ a w profile verbose).trace) :
    ∃ clusterArns i selectedCluster serviceArns j selectedService taskArns selectedTask
      task otherTasks containerInstanceArn container runtimeId
      containerInstance otherInstances ec2InstanceId,
      w.ListClusters = .ok clusterArns ∧ clusterArns ≠ []
      ∧ w.promptRun "Select cluster" (clusterNames clusterArns) = .ok (i, selectedCluster)
      ∧ w.ListServices selectedCluster = .ok serviceArns ∧ serviceArns ≠ []
      ∧ w.promptRun "Select service" (serviceNames serviceArns) = .ok (j, selectedService)
      ∧ w.ListTasks selectedCluster selectedService = .ok taskArns ∧ taskArns ≠ []
      ∧ selectedTask ∈ taskArns
      ∧ w.DescribeTasks selectedCluster [selectedTask] = .ok (task :: otherTasks)
      ∧ task.ContainerInstanceArn = some containerInstanceArn
      ∧ task.Containers ≠ [] ∧ container ∈ task.Containers
      ∧ container.RuntimeId = some runtimeId
      ∧ w.DescribeContainerInstances selectedCluster [containerInstanceArn] =
          .ok (containerInstance :: otherInstances)
      ∧ containerInstance.Ec2InstanceId = some ec2InstanceId
      ∧ args = ssmArgs ec2InstanceId runtimeId := by
  have h0 := mem_execs_RunE h₁ h₂ a w profile verbose args ((mem_execs_iff _ _ _).mpr hx)
  obtain ⟨clusterArns, i, selectedCluster, hC, hCne, hPC, h1⟩ :=
    mem_execs_clusterStage w verbose _ h0
  obtain ⟨serviceArns, j, selectedService, hS, hSne, hPS, h2⟩ :=
    mem_execs_serviceStage w verbose selectedCluster _ h1
  obtain ⟨taskArns, selectedTask, hT, hTmem, h3⟩ :=
    mem_execs_taskStage w verbose selectedCluster selectedService _ h2
  obtain ⟨task, otherTasks, arn, hD, hA, h4⟩ :=
    mem_execs_describeStage w verbose selectedCluster selectedTask _ h3
  obtain ⟨c, hcmem, h5⟩ := mem_execs_containerStage w verbose selectedCluster arn _ _ h4
  obtain ⟨r, inst, others, ec2, hR, hI, hE, hargs⟩ :=
    mem_execs_runtimeIdCheck w verbose selectedCluster arn c _ h5
  refine ⟨clusterArns, i, selectedCluster, serviceArns, j, selectedService, taskArns,
    selectedTask, task, otherTasks, arn, c, r, inst, others, ec2,
    hC, hCne, hPC, hS, hSne, hPS, hT, List.ne_nil_of_mem hTmem, hTmem, hD, hA,
    List.ne_nil_of_mem hcmem, hcmem, hR, hI, hE, ?_⟩
  exact (Prod.mk.inj hargs).2

theorem session_only_after_resolution_witness :
    Event.exec "aws" ["ssm", "start-session", "--target", "i-0abc", "--document-name",
        "AWS-StartInteractiveCommand", "--parameters", "command=sudo docker exec -ti rt-1 sh"] ∈
      (RunE hostOk hostOk advisorPlain
        (worldProd [taskWith [⟨some "app", some "rt-1"⟩]] chooseFirst) "" false).trace
    ∧ ∃ ec2InstanceId runtimeId,
        ["ssm", "start-session", "--target", "i-0abc", "--document-name",
          "AWS-StartInteractiveCommand", "--parameters",
          "command=sudo docker exec -ti rt-1 sh"] = ssmArgs ec2InstanceId runtimeId := by
  refine ⟨by decide, ?_⟩
  obtain ⟨_, _, _, _, _, _, _, _, _, _, _, _, r, _, _, ec2, h⟩ :=
    session_only_after_resolution hostOk hostOk advisorPlain
      (worldProd [taskWith [⟨some "app", some "rt-1"⟩]] chooseFirst) "" false _
      (show Event.exec "aws" ["ssm", "start-session", "--target", "i-0abc", "--document-name",
        "AWS-StartInteractiveCommand", "--parameters", "command=sudo docker exec -ti rt-1 sh"] ∈
        (RunE hostOk hostOk advisorPlain
          (worldProd [taskWith [⟨some "app", some "rt-1"⟩]] chooseFirst) "" false).trace
        by decide)
  exact ⟨ec2, r, h.2.2.2.2.2.2.2.2.2.2.2.2.2.2.2.2⟩

/-! ## C12: when `LoadAWSConfig` fails -/

theorem handleProfile_fails_iff (h : CredHost) (profile : String) :
    (handleProfile h profile).2.isSome = true ↔
      (profile ≠ "" ∧ h.lookPathAssume = true ∧ (h.assumeRun [profile]).isSome = true) := by
  unfold handleProfile
  by_cases hp : profile = ""
  · simp only [hp, ne_eq, not_true_eq_false, if_false, false_and, iff_false]
    split_ifs
    · unfold tryAssumeProfile
      split_ifs
      · cases h.assumeRun [] <;> simp
      · simp
    · simp
  · simp only [ne_eq, hp, not_false_eq_true, if_true, true_and]
    unfold setAWSProfile
    by_cases hl : h.lookPathAssume = true
    · simp only [hl, if_true, true_and]
      unfold runAssumeCommand
      rcases h.assumeRun [profile] with _ | ⟨err, msg⟩
      · simp
      · simp only [Option.isSome_some, iff_true]
        split_ifs <;> rfl
    · simp [hl]

theorem handleProfile_error_is_auth (h : CredHost) (profile : String) (err : GoError)
    (he : (handleProfile h profile).2 = some err) :
    ∃ Message Cause, err = .AWSAuthError Message Cause := by
  unfold handleProfile at he
  by_cases hp : profile = ""
  · simp only [hp, ne_eq, not_true_eq_false, if_false] at he
    by_cases hv : h.envAWSProfile = ""
    · simp only [hv, if_true] at he
      cases hT : (tryAssumeProfile h).2 <;> simp [hT] at he
    · simp [hv] at he
  · simp only [ne_eq, hp, not_false_eq_true, if_true] at he
    unfold setAWSProfile at he
    by_cases hl : h.lookPathAssume = true
    · simp only [hl, if_true] at he
      unfold runAssumeCommand at he
      rcases hR : h.assumeRun [profile] with _ | ⟨e, msg⟩
      · simp [hR] at he
      · simp only [hR] at he
        by_cases hc : strings.Contains msg "no such file or directory" = true
        · simp only [hc, if_true] at he
          exact ⟨_, _, (Option.some.inj he).symm⟩
        · simp only [hc, if_false] at he
          exact ⟨_, _, (Option.some.inj he).symm⟩
    · simp [hl] at he

theorem classifyIdentityError_is_auth (err : GoError) :
    ∃ Message, classifyIdentityError err = .AWSAuthError Message err := by
  unfold classifyIdentityError
  simp only
  split_ifs <;> exact ⟨_, rfl⟩

/-- `LoadAWSConfig` in terms of its three steps. -/
theorem LoadAWSConfig_result (h : CredHost) (profile : String) :
    (LoadAWSConfig h profile).2 =
      match (handleProfile h profile).2 with
      | some err => some err
      | none =>
        match h.loadDefaultConfig with
        | some err =>
          some (.AWSAuthError
            "Failed to load AWS configuration. Please check your AWS credentials and configuration."
            err)
        | none => verifyAWSCredentials h.getCallerIdentity := by
  unfold LoadAWSConfig
  rcases handleProfile h profile with ⟨evs, _ | err⟩
  · simp only
    cases h.loadDefaultConfig with
    | some e => rfl
    | none =>
      simp only
      cases verifyAWSCredentials h.getCallerIdentity <;> rfl
  · rfl

theorem LoadAWSConfig_events_mem (h : CredHost) (profile : String) (e : Event)
    (hnone : (handleProfile h profile).2 = none) (he : e ∈ (handleProfile h profile).1) :
    e ∈ (LoadAWSConfig h profile).1 ∧ Event.loadDefaultConfig ∈ (LoadAWSConfig h profile).1 := by
  unfold LoadAWSConfig
  rcases hH : handleProfile h profile with ⟨evs, _ | err⟩
  · rw [hH] at he
    simp only at he
    simp only
    cases h.loadDefaultConfig with
    | some e' => simp [he]
    | none =>
      simp only
      cases verifyAWSCredentials h.getCallerIdentity <;> simp [he]
  · rw [hH] at hnone
    simp at hnone

/-- C12: `LoadAWSConfig` fails exactly when a profile is given, `assume` is on
the path and running it with the profile fails, or loading the default
configuration fails, or the identity check fails; every failure is an
`AWSAuthError`; without a profile, a missing or failing `assume` only prints a
warning and the configuration is loaded all the same. -/
theorem LoadAWSConfig_fails_iff (h : CredHost) (profile : String) :
    ((LoadAWSConfig h profile).2.isSome = true ↔
      (profile ≠ "" ∧ h.lookPathAssume = true ∧ (h.assumeRun [profile]).isSome = true)
      ∨ h.loadDefaultConfig.isSome = true
      ∨ h.getCallerIdentity.isSome = true)
    ∧ (∀ err, (LoadAWSConfig h profile).2 = some err →
        ∃ Message Cause, err = .AWSAuthError Message Cause)
    ∧ (profile = "" → h.envAWSProfile = "" →
        (h.lookPathAssume = false ∨ (h.assumeRun []).isSome = true) →
        (handleProfile h profile).2 = none
        ∧ Event.printWarning "No AWS profile configured, using default credentials" ∈
            (LoadAWSConfig h profile).1
        ∧ Event.loadDefaultConfig ∈ (LoadAWSConfig h profile).1) := by
  refine ⟨?_, ?_, ?_⟩
  · rw [LoadAWSConfig_result, ← handleProfile_fails_iff]
    cases hH : (handleProfile h profile).2 with
    | some err => simp
    | none =>
      cases hD : h.loadDefaultConfig with
      | some e => simp
      | none =>
        cases hG : h.getCallerIdentity <;> simp [verifyAWSCredentials]
  · intro err he
    rw [LoadAWSConfig_result] at he
    cases hH : (handleProfile h profile).2 with
    | some e =>
      rw [hH] at he
      exact handleProfile_error_is_auth h profile err (hH.trans he)
    | none =>
      rw [hH] at he
      cases hD : h.loadDefaultConfig with
      | some e =>
        rw [hD] at he
        exact ⟨_, _, (Option.some.inj he).symm⟩
      | none =>
        rw [hD] at he
        cases hG : h.getCallerIdentity with
        | none => simp [hG, verifyAWSCredentials] at he
        | some e =>
          simp only [hG, verifyAWSCredentials, Option.some.injEq] at he
          obtain ⟨m, hm⟩ := classifyIdentityError_is_auth e
          exact ⟨m, e, by rw [← he, hm]⟩
  · intro hp hv hfail
    have hnone : (handleProfile h profile).2 = none := by
      cases hH : (handleProfile h profile).2 with
      | none => rfl
      | some e =>
        have := (handleProfile_fails_iff h profile).mp (by simp [hH])
        exact absurd hp this.1
    have hw : Event.printWarning "No AWS profile configured, using default credentials" ∈
        (handleProfile h profile).1 := by
      unfold handleProfile tryAssumeProfile
      simp only [hp, ne_eq, not_true_eq_false, if_false, hv, if_true]
      rcases hfail with hl | hr
      · simp [hl]
      · by_cases hl : h.lookPathAssume = true
        · rcases hR : h.assumeRun [] with _ | ⟨e, msg⟩
          · simp [hR] at hr
          · simp [hl, hR]
        · simp [hl]
    exact ⟨hnone, LoadAWSConfig_events_mem h profile _ hnone hw⟩

theorem LoadAWSConfig_fails_iff_witness :
    LoadAWSConfig hostNoHelper "" =
      ([.lookPath "assume",
        .printWarning "No AWS profile configured, using default credentials",
        .loadDefaultConfig, .getCallerIdentity], none)
    ∧ LoadAWSConfig hostHelperFails "" =
      ([.lookPath "assume", .exec "assume" [],
        .printWarning "No AWS profile configured, using default credentials",
        .loadDefaultConfig, .getCallerIdentity], none)
    ∧ (LoadAWSConfig hostHelperFails "dev").2 =
      some (.AWSAuthError "Failed to assume AWS profile 'dev': no profile selected"
        (.errorString "exit status 1"))
    ∧ Event.printWarning "No AWS profile configured, using default credentials" ∈
        (LoadAWSConfig hostHelperFails "").1 :=
  ⟨by decide, by decide, by decide,
   ((LoadAWSConfig_fails_iff hostHelperFails "").2.2 rfl rfl (Or.inr rfl)).2.1⟩

/-! ## C13: the Setup Advisor and authentication errors -/

theorem LoadAWSConfig_error_is_auth (h : CredHost) (profile : String) (err : GoError)
    (he : (LoadAWSConfig h profile).2 = some err) :
    ∃ Message Cause, err = .AWSAuthError Message Cause := by
  rw [LoadAWSConfig_result] at he
  cases hH : (handleProfile h profile).2 with
  | some e =>
    rw [hH] at he
    exact handleProfile_error_is_auth h profile err (hH.trans he)
  | none =>
    rw [hH] at he
    cases hD : h.loadDefaultConfig with
    | some e =>
      rw [hD] at he
      exact ⟨_, _, (Option.some.inj he).symm⟩
    | none =>
      rw [hD] at he
      cases hG : h.getCallerIdentity with
      | none => simp [hG, verifyAWSCredentials] at he
      | some e =>
        simp only [hG, verifyAWSCredentials, Option.some.injEq] at he
        obtain ⟨m, hm⟩ := classifyIdentityError_is_auth e
        exact ⟨m, e, by rw [← he, hm]⟩

/-- On the path through `CheckAWSProfile` the advisor runs before the error is
returned: the instructions are the last thing printed. -/
theorem CheckAWSProfile_prints_instructions (h : CredHost) (a : AdvisorHost) (profile : String)
    (err : GoError) (he : (CheckAWSProfile h a profile).2 = some err) :
    (∃ Message Cause, err = .AWSAuthError Message Cause)
    ∧ PrintSetupInstructions a err <:+ (CheckAWSProfile h a profile).1 := by
  unfold CheckAWSProfile at he ⊢
  rcases hL : LoadAWSConfig h profile with ⟨evs, _ | e⟩
  · simp [hL] at he
  · have hauth := LoadAWSConfig_error_is_auth h profile e (by rw [hL])
    obtain ⟨m, c, rfl⟩ := hauth
    simp only [hL, errorsAsAuthError, Option.some.injEq] at he ⊢
    subst he
    exact ⟨⟨m, c, rfl⟩, List.suffix_append _ _⟩

/-- C13 (the code at the failing input): the first `LoadAWSConfig`, made inside
`CheckAWSProfile`, succeeds and the second, made by `RunE`, fails the identity
check; `container connect` and `container list` return an error wrapping the
`AWSAuthError` and nothing of the Setup Advisor has been printed. -/
theorem auth_error_without_advisor :
    RunE hostOk hostExpired advisorPlain
        (worldProd [taskWith [⟨some "app", some "rt-1"⟩]] chooseFirst) "" false =
      ⟨[.loadDefaultConfig, .getCallerIdentity, .loadDefaultConfig, .getCallerIdentity],
       .error (.wrapError
         ("failed to load AWS config: " ++ msgExpired)
         (.AWSAuthError msgExpired
           (.errorString
             "operation error STS: GetCallerIdentity, ExpiredToken: token expired")))⟩
    ∧ (∀ e ∈ PrintSetupInstructions advisorPlain (.errorString ""),
        e ∉ (RunE hostOk hostExpired advisorPlain
          (worldProd [taskWith [⟨some "app", some "rt-1"⟩]] chooseFirst) "" false).trace)
    ∧ containerListRunE hostOk hostExpired advisorPlain
        (worldProd [taskWith [⟨some "app", some "rt-1"⟩]] chooseFirst) "" =
      ⟨[.loadDefaultConfig, .getCallerIdentity, .loadDefaultConfig, .getCallerIdentity],
       .error (.wrapError
         ("failed to load AWS config: " ++ msgExpired)
         (.AWSAuthError msgExpired
           (.errorString
             "operation error STS: GetCallerIdentity, ExpiredToken: token expired")))⟩ := by
  decide

/-! ## C14: API calls and their errors -/

@[simp] theorem apiKinds_nil : apiKinds [] = [] := rfl

theorem apiKinds_cons (e : Event) (tr : List Event) :
    apiKinds (e :: tr) = e.apiKind.toList ++ apiKinds tr := by
  cases h : e.apiKind <;> simp [apiKinds, List.filterMap_cons, h]

@[simp] theorem apiKinds_append (a b : List Event) :
    apiKinds (a ++ b) = apiKinds a ++ apiKinds b := by
  simp [apiKinds, List.filterMap_append]

@[simp] theorem apiKinds_timing (verbose : Bool) (step : String) :
    apiKinds (timing verbose step) = [] := by
  cases verbose <;> simp [timing, apiKinds_cons, Event.apiKind]

theorem apiKinds_sessionStage (w : World) (verbose : Bool) (ec2InstanceId runtimeId : String) :
    apiKinds (sessionStage w verbose ec2InstanceId runtimeId).trace = [] := by
  unfold sessionStage
  cases w.awsRun (ssmArgs ec2InstanceId runtimeId) <;> simp [apiKinds_cons, Event.apiKind]

theorem apiKinds_instanceStage (w : World) (verbose : Bool)
    (selectedCluster containerInstanceArn runtimeId : String) :
    apiKinds (instanceStage w verbose selectedCluster containerInstanceArn runtimeId).trace =
      [.DescribeContainerInstances] := by
  unfold instanceStage
  rcases w.DescribeContainerInstances selectedCluster [containerInstanceArn] with
    err | (_ | ⟨⟨_ | ec2⟩, rest⟩) <;>
    simp [apiKinds_sessionStage, apiKinds_cons, Event.apiKind]

theorem apiKinds_runtimeIdCheck (w : World) (verbose : Bool)
    (selectedCluster containerInstanceArn : String) (c : Container) :
    apiKinds (runtimeIdCheck w verbose selectedCluster containerInstanceArn c).trace <+:
      [.DescribeContainerInstances] := by
  unfold runtimeIdCheck
  cases c.RuntimeId <;> simp [apiKinds_instanceStage]

theorem apiKinds_containerStage (w : World) (verbose : Bool)
    (selectedCluster containerInstanceArn : String) (containers : List Container) :
    apiKinds (containerStage w verbose selectedCluster containerInstanceArn containers).trace <+:
      [.DescribeContainerInstances] := by
  rcases containers with _ | ⟨c₁, _ | ⟨c₂, rest⟩⟩
  · simp [containerStage]
  · simp only [containerStage]
    cases c₁.Name with
    | none => simp
    | some name =>
      simpa [apiKinds_cons, Event.apiKind] using
        apiKinds_runtimeIdCheck w verbose selectedCluster containerInstanceArn c₁
  · simp only [containerStage]
    rcases w.promptRun "Select container" _ with err | ⟨_, sel⟩
    · simp [apiKinds_cons, Event.apiKind]
    · simp only
      cases findContainer (c₁ :: c₂ :: rest) sel with
      | none => simp [apiKinds_cons, Event.apiKind]
      | some c =>
        simp only
        cases c.Name with
        | none => simp [apiKinds_cons, Event.apiKind]
        | some name =>
          simpa [apiKinds_cons, Event.apiKind] using
            apiKinds_runtimeIdCheck w verbose selectedCluster containerInstanceArn c

theorem apiKinds_describeStage (w : World) (verbose : Bool)
    (selectedCluster selectedTask : String) :
    apiKinds (describeStage w verbose selectedCluster selectedTask).trace <+:
      [.DescribeTasks, .DescribeContainerInstances] := by
  unfold describeStage
  rcases w.DescribeTasks selectedCluster [selectedTask] with
    err | (_ | ⟨⟨_ | arn, containers⟩, rest⟩)
  · simp [apiKinds_cons, Event.apiKind, List.cons_prefix_cons]
  · simp [apiKinds_cons, Event.apiKind, List.cons_prefix_cons]
  · simp [apiKinds_cons, Event.apiKind, List.cons_prefix_cons]
  · simpa [apiKinds_cons, Event.apiKind, List.cons_prefix_cons] using
      apiKinds_containerStage w verbose selectedCluster arn containers

theorem apiKinds_taskStage (w : World) (verbose : Bool)
    (selectedCluster selectedService : String) :
    apiKinds (taskStage w verbose selectedCluster selectedService).trace <+:
      [.ListTasks, .DescribeTasks, .DescribeContainerInstances] := by
  unfold taskStage
  rcases w.ListTasks selectedCluster selectedService with
    err | (_ | ⟨t₁, _ | ⟨t₂, rest⟩⟩)
  · simp [apiKinds_cons, Event.apiKind, List.cons_prefix_cons]
  · simp [apiKinds_cons, Event.apiKind, List.cons_prefix_cons]
  · simpa [apiKinds_cons, Event.apiKind, List.cons_prefix_cons] using
      apiKinds_describeStage w verbose selectedCluster t₁
  · simp only
    rcases w.promptRun "Select task" _ with err | ⟨k, _⟩
    · simp [apiKinds_cons, Event.apiKind, List.cons_prefix_cons]
    · simp only
      cases (t₁ :: t₂ :: rest)[k]? with
      | none => simp [apiKinds_cons, Event.apiKind, List.cons_prefix_cons]
      | some t =>
        simpa [apiKinds_cons, Event.apiKind, List.cons_prefix_cons] using
          apiKinds_describeStage w verbose selectedCluster t

theorem apiKinds_serviceStage (w : World) (verbose : Bool) (selectedCluster : String) :
    apiKinds (serviceStage w verbose selectedCluster).trace <+:
      [.ListServices, .ListTasks, .DescribeTasks, .DescribeContainerInstances] := by
  unfold serviceStage
  rcases w.ListServices selectedCluster with err | (_ | ⟨s, rest⟩)
  · simp [apiKinds_cons, Event.apiKind, List.cons_prefix_cons]
  · simp [apiKinds_cons, Event.apiKind, List.cons_prefix_cons]
  · simp only
    rcases w.promptRun "Select service" _ with err | ⟨_, sel⟩
    · simp [apiKinds_cons, Event.apiKind, List.cons_prefix_cons]
    · simpa [apiKinds_cons, Event.apiKind, List.cons_prefix_cons] using
        apiKinds_taskStage w verbose selectedCluster sel

theorem apiKinds_clusterStage (w : World) (verbose : Bool) :
    apiKinds (clusterStage w verbose).trace <+:
      [.ListClusters, .ListServices, .ListTasks, .DescribeTasks,
       .DescribeContainerInstances] := by
  unfold clusterStage
  rcases w.ListClusters with err | (_ | ⟨c, rest⟩)
  · simp [apiKinds_cons, Event.apiKind, List.cons_prefix_cons]
  · simp [apiKinds_cons, Event.apiKind, List.cons_prefix_cons]
  · simp only
    rcases w.promptRun "Select cluster" _ with err | ⟨_, sel⟩
    · simp [apiKinds_cons, Event.apiKind, List.cons_prefix_cons]
    · simpa [apiKinds_cons, Event.apiKind, List.cons_prefix_cons] using
        apiKinds_serviceStage w verbose sel

theorem apiKinds_handleProfile (h : CredHost) (profile : String) :
    apiKinds (handleProfile h profile).1 = [] := by
  unfold handleProfile
  by_cases hp : profile = ""
  · simp only [hp, ne_eq, not_true_eq_false, if_false]
    by_cases hv : h.envAWSProfile = ""
    · simp only [hv, if_true]
      unfold tryAssumeProfile
      by_cases hl : h.lookPathAssume = true
      · rcases hR : h.assumeRun [] with _ | ⟨e, msg⟩ <;>
          simp [hl, hR, apiKinds_cons, Event.apiKind]
      · simp [hl, apiKinds_cons, Event.apiKind]
    · simp [hv]
  · simp only [ne_eq, hp, not_false_eq_true, if_true]
    unfold setAWSProfile
    by_cases hl : h.lookPathAssume = true
    · simp only [hl, if_true]
      unfold runAssumeCommand
      rcases hR : h.assumeRun [profile] with _ | ⟨e, msg⟩
      · simp [apiKinds_cons, Event.apiKind]
      · simp only
        split_ifs <;> simp [apiKinds_cons, Event.apiKind]
    · simp [hl, apiKinds_cons, Event.apiKind]

theorem apiKinds_LoadAWSConfig (h : CredHost) (profile : String) :
    apiKinds (LoadAWSConfig h profile).1 = [] := by
  have hp := apiKinds_handleProfile h profile
  unfold LoadAWSConfig
  rcases hH : handleProfile h profile with ⟨evs, _ | err⟩
  · rw [hH] at hp
    simp only at hp ⊢
    cases h.loadDefaultConfig with
    | some e => simp [hp, apiKinds_cons, Event.apiKind]
    | none =>
      simp only
      cases verifyAWSCredentials h.getCallerIdentity <;>
        simp [hp, apiKinds_cons, Event.apiKind]
  · rw [hH] at hp
    exact hp

theorem apiKinds_PrintSetupInstructions (a : AdvisorHost) (err : GoError) :
    apiKinds (PrintSetupInstructions a err) = [] := by
  unfold PrintSetupInstructions printEnvironmentSpecificInstructions
    printGeneralTroubleshooting printQuickFixes
  split_ifs <;> simp [apiKinds_cons, Event.apiKind]

theorem apiKinds_CheckAWSProfile (h : CredHost) (a : AdvisorHost) (profile : String) :
    apiKinds (CheckAWSProfile h a profile).1 = [] := by
  have hp := apiKinds_LoadAWSConfig h profile
  unfold CheckAWSProfile
  rcases hL : LoadAWSConfig h profile with ⟨evs, _ | err⟩
  · rw [hL] at hp
    exact hp
  · rw [hL] at hp
    simp only at hp ⊢
    cases errorsAsAuthError err with
    | none => exact hp
    | some authErr =>
      simp [hp, apiKinds_cons, Event.apiKind, apiKinds_PrintSetupInstructions]

theorem apiKinds_RunE (h₁ h₂ : CredHost) (a : AdvisorHost) (w : World) (profile : String)
    (verbose : Bool) :
    apiKinds (RunE h₁ h₂ a w profile verbose).trace <+:
      [.ListClusters, .ListServices, .ListTasks, .DescribeTasks,
       .DescribeContainerInstances] := by
  have h1 := apiKinds_CheckAWSProfile h₁ a profile
  have h2 := apiKinds_LoadAWSConfig h₂ profile
  unfold RunE
  rcases hC : CheckAWSProfile h₁ a profile with ⟨evs₁, _ | err⟩
  · rw [hC] at h1
    simp only at h1 ⊢
    rcases hL : LoadAWSConfig h₂ profile with ⟨evs₂, _ | err⟩
    · rw [hL] at h2
      simp only at h2 ⊢
      simpa [h1, h2] using apiKinds_clusterStage w verbose
    · rw [hL] at h2
      simp only at h2 ⊢
      simp [h1, h2]
  · rw [hC] at h1
    simp only at h1 ⊢
    simp [h1]

/-- C14: in a run of `container connect` the ECS operations called are an
initial part of ListClusters, ListServices, ListTasks, DescribeTasks,
DescribeContainerInstances, so each is called at most once; when one of them
returns an error, the command returns at once an error that wraps it and whose
message is the prefix of that stage followed by the message of the error, and
nothing follows the failed call. -/
theorem api_calls_once_and_errors_wrapped (h₁ h₂ : CredHost) (a : AdvisorHost) (w : World)
    (profile : String) (verbose : Bool)
    (selectedCluster selectedService selectedTask containerInstanceArn runtimeId : String)
    (e : GoError) :
    (apiKinds (RunE h₁ h₂ a w profile verbose).trace <+:
        [.ListClusters, .ListServices, .ListTasks, .DescribeTasks,
         .DescribeContainerInstances]
      ∧ (apiKinds (RunE h₁ h₂ a w profile verbose).trace).Nodup)
    ∧ (w.ListClusters = .error e →
        clusterStage w verbose =
          ⟨[.listClusters], .error (.wrapError ("failed to list clusters: " ++ e.Error) e)⟩)
    ∧ (w.ListServices selectedCluster = .error e →
        serviceStage w verbose selectedCluster =
          ⟨[.listServices selectedCluster],
           .error (.wrapError ("failed to list services: " ++ e.Error) e)⟩)
    ∧ (w.ListTasks selectedCluster selectedService = .error e →
        taskStage w verbose selectedCluster selectedService =
          ⟨[.listTasks selectedCluster selectedService],
           .error (.wrapError ("failed to list tasks: " ++ e.Error) e)⟩)
    ∧ (w.DescribeTasks selectedCluster [selectedTask] = .error e →
        describeStage w verbose selectedCluster selectedTask =
          ⟨[.describeTasks selectedCluster [selectedTask]],
           .error (.wrapError ("failed to describe task: " ++ e.Error) e)⟩)
    ∧ (w.DescribeContainerInstances selectedCluster [containerInstanceArn] = .error e →
        instanceStage w verbose selectedCluster containerInstanceArn runtimeId =
          ⟨[.describeContainerInstances selectedCluster [containerInstanceArn]],
           .error (.wrapError ("failed to describe container instance: " ++ e.Error) e)⟩) := by
  have hpre := apiKinds_RunE h₁ h₂ a w profile verbose
  refine ⟨⟨hpre, ?_⟩, ?_, ?_, ?_, ?_, ?_⟩
  · exact List.Nodup.sublist hpre.sublist (by decide)
  · intro h
    simp [clusterStage, h, Run.after, Errorf_w]
  · intro h
    simp [serviceStage, h, Run.after, Errorf_w]
  · intro h
    simp [taskStage, h, Run.after, Errorf_w]
  · intro h
    simp [describeStage, h, Run.after, Errorf_w]
  · intro h
    simp [instanceStage, h, Run.after, Errorf_w]

theorem api_calls_once_and_errors_wrapped_witness :
    RunE hostOk hostOk advisorPlain worldServicesFail "" false =
      ⟨[.loadDefaultConfig, .getCallerIdentity, .loadDefaultConfig, .getCallerIdentity,
        .listClusters,
        .prompt "Select cluster" ["prod"],
        .printInfo "Selected cluster: prod",
        .listServices "prod"],
       .error (.wrapError "failed to list services: ThrottlingException: Rate exceeded"
         (.errorString "ThrottlingException: Rate exceeded"))⟩
    ∧ serviceStage worldServicesFail false "prod" =
      ⟨[.listServices "prod"],
       .error (.wrapError
         ("failed to list services: " ++
           (GoError.errorString "ThrottlingException: Rate exceeded").Error)
         (.errorString "ThrottlingException: Rate exceeded"))⟩ :=
  ⟨by decide,
   (api_calls_once_and_errors_wrapped hostOk hostOk advisorPlain worldServicesFail "" false
      "prod" "api" "t1" instanceArn "rt-1"
      (.errorString "ThrottlingException: Rate exceeded")).2.2.1 rfl⟩

/-! ## C15: the Setup Advisor -/

theorem PrintSetupInstructions_eq_adviceSpec (a : AdvisorHost) (err : GoError) :
    PrintSetupInstructions a err = adviceSpec (isCorpEnvironment a) (isGrantedAvailable a) := by
  unfold PrintSetupInstructions printEnvironmentSpecificInstructions adviceSpec
    environmentBlockSpec printGeneralTroubleshooting printQuickFixes
    troubleshootingBlockSpec quickFixesBlockSpec
  cases isCorpEnvironment a <;> cases isGrantedAvailable a <;> simp

/-- C15: what `PrintSetupInstructions` prints is determined by the two
detection booleans, whatever error is passed: the title and the three blocks
in the order environment-specific, troubleshooting, quick fixes, each line by
line, where the environment-specific block is the corporate one when corporate
is true (whatever the helper boolean), the granted one when corporate is false
and the helper is installed, and the standard one otherwise. -/
theorem advisor_depends_on_booleans (a a' : AdvisorHost) (err err' : GoError)
    (hc : isCorpEnvironment a = isCorpEnvironment a')
    (hg : isCorpEnvironment a = false → isGrantedAvailable a = isGrantedAvailable a') :
    PrintSetupInstructions a err = PrintSetupInstructions a' err'
    ∧ PrintSetupInstructions a err =
        [.printf "\nAWS Setup Instructions:\n"] ++
          (.printf "\nEnvironment-specific setup:\n" ::
            environmentBlockSpec (isCorpEnvironment a) (isGrantedAvailable a)) ++
          [.printf "\nTroubleshooting:\n",
           .printf "  • Check AWS configuration:\n",
           .printf "    • aws sts get-caller-identity\n",
           .printf "    • aws configure list\n",
           .printf "    • echo $AWS_PROFILE\n",
           .printf "  • Check AWS SSO (if using SSO):\n",
           .printf "    • aws sso login\n",
           .printf "    • aws configure sso\n",
           .printf "  • Check credentials location:\n",
           .printf "    • ~/.aws/credentials\n",
           .printf "    • ~/.aws/config\n"] ++
          [.printf "\nQuick fixes:\n",
           .printf "  • For immediate access:\n",
           .printf "    • Set temporary credentials:\n",
           .printf "      export AWS_ACCESS_KEY_ID=your_access_key\n",
           .printf "      export AWS_SECRET_ACCESS_KEY=your_secret_key\n",
           .printf "      export AWS_DEFAULT_REGION=us-east-1\n",
           .printf "  • For development:\n",
           .printf "    • Use LocalStack for local development\n",
           .printf "    • Use AWS CLI profiles for different environments\n",
           .printf "  • For CI/CD:\n",
           .printf "    • Use IAM roles for EC2/ECS/Lambda\n",
           .printf "    • Use environment variables in CI systems\n"]
    ∧ environmentBlockSpec true true = environmentBlockSpec true false
    ∧ [environmentBlockSpec true false, environmentBlockSpec false true,
        environmentBlockSpec false false].Nodup := by
  refine ⟨?_, PrintSetupInstructions_eq_adviceSpec a err, rfl, by decide⟩
  rw [PrintSetupInstructions_eq_adviceSpec, PrintSetupInstructions_eq_adviceSpec, ← hc]
  cases hca : isCorpEnvironment a with
  | true => rfl
  | false => rw [hg hca]

theorem advisor_depends_on_booleans_witness :
    isCorpEnvironment advisorSso = true
    ∧ isCorpEnvironment advisorCorpHost = true
    ∧ isGrantedAvailable advisorSso ≠ isGrantedAvailable advisorCorpHost
    ∧ PrintSetupInstructions advisorSso (.AWSAuthError msgExpired (.errorString "ExpiredToken")) =
        PrintSetupInstructions advisorCorpHost
          (.AWSAuthError msgNoCredentials (.errorString "NoCredentialsError"))
    ∧ PrintSetupInstructions advisorPlain (.errorString "NoCredentialsError") =
        [.printf "\nAWS Setup Instructions:\n",
         .printf "\nEnvironment-specific setup:\n",
         .printf "  • Standard AWS setup:\n",
         .printf "    • Configure credentials: aws configure\n",
         .printf "    • Use named profile: aws configure --profile <profile-name>\n",
         .printf "    • Set profile: export AWS_PROFILE=<profile-name>\n",
         .printf "\nTroubleshooting:\n",
         .printf "  • Check AWS configuration:\n",
         .printf "    • aws sts get-caller-identity\n",
         .printf "    • aws configure list\n",
         .printf "    • echo $AWS_PROFILE\n",
         .printf "  • Check AWS SSO (if using SSO):\n",
         .printf "    • aws sso login\n",
         .printf "    • aws configure sso\n",
         .printf "  • Check credentials location:\n",
         .printf "    • ~/.aws/credentials\n",
         .printf "    • ~/.aws/config\n",
         .printf "\nQuick fixes:\n",
         .printf "  • For immediate access:\n",
         .printf "    • Set temporary credentials:\n",
         .printf "      export AWS_ACCESS_KEY_ID=your_access_key\n",
         .printf "      export AWS_SECRET_ACCESS_KEY=your_secret_key\n",
         .printf "      export AWS_DEFAULT_REGION=us-east-1\n",
         .printf "  • For development:\n",
         .printf "    • Use LocalStack for local development\n",
         .printf "    • Use AWS CLI profiles for different environments\n",
         .printf "  • For CI/CD:\n",
         .printf "    • Use IAM roles for EC2/ECS/Lambda\n",
         .printf "    • Use environment variables in CI systems\n"] :=
  ⟨by decide, by decide, by decide,
   (advisor_depends_on_booleans advisorSso advisorCorpHost
      (.AWSAuthError msgExpired (.errorString "ExpiredToken"))
      (.AWSAuthError msgNoCredentials (.errorString "NoCredentialsError"))
      (by decide) (by decide)).1,
   (advisor_depends_on_booleans advisorPlain advisorPlain
      (.errorString "NoCredentialsError") (.errorString "NoCredentialsError")
      rfl (fun _ => rfl)).2.1.trans (by decide)⟩

/-! ## C16: candidates and display names -/

/-- C16 (the code at the failing input): `ListServices` returns the one ARN
"arn:aws:ecs:eu-west-1:111122223333:service/api"; `container connect` offers
the chooser an empty list of services and `container list` prints the heading
and no service. A cluster identifier without "/" is dropped in the same way. -/
theorem short_service_arn_dropped :
    worldShortServiceArn.ListServices "prod" =
      .ok ["arn:aws:ecs:eu-west-1:111122223333:service/api"]
    ∧ serviceNames ["arn:aws:ecs:eu-west-1:111122223333:service/api"] = []
    ∧ clusterNames ["prod"] = []
    ∧ RunE hostOk hostOk advisorPlain worldShortServiceArn "" false =
      ⟨[.loadDefaultConfig, .getCallerIdentity, .loadDefaultConfig, .getCallerIdentity,
        .listClusters,
        .prompt "Select cluster" ["prod"],
        .printInfo "Selected cluster: prod",
        .listServices "prod",
        .prompt "Select service" []],
       .error (.wrapError "service selection cancelled: list is empty"
         (.errorString "list is empty"))⟩
    ∧ containerListRunE hostOk hostOk advisorPlain worldShortServiceArn "" =
      ⟨[.loadDefaultConfig, .getCallerIdentity, .loadDefaultConfig, .getCallerIdentity,
        .listClusters,
        .prompt "Select cluster" ["prod"],
        .printInfo "Selected cluster: prod",
        .listServices "prod",
        .printf "\nServices in cluster:\n"],
       .ok⟩ :=
  ⟨rfl, by decide, by decide, by decide, by decide⟩

/-! ## C17: a container without a name -/

/-- C17 (the code at the failing input): the described task has one container
whose name is absent; the command panics on the dereference of the name
(line 206) instead of proceeding or returning an error. -/
theorem single_unnamed_container_panics :
    (taskWith [⟨none, some "rt-1"⟩]).ContainerInstanceArn = some instanceArn
    ∧ (taskWith [⟨none, some "rt-1"⟩]).Containers = [⟨none, some "rt-1"⟩]
    ∧ RunE hostOk hostOk advisorPlain
        (worldOneTask [taskWith [⟨none, some "rt-1"⟩]] chooseFirst) "" false =
      ⟨[.loadDefaultConfig, .getCallerIdentity, .loadDefaultConfig, .getCallerIdentity,
        .listClusters,
        .prompt "Select cluster" ["prod"],
        .printInfo "Selected cluster: prod",
        .listServices "prod",
        .prompt "Select service" ["api"],
        .printInfo "Selected service: api",
        .listTasks "prod" "api",
        .printInfo "Using task: arn:aws:ecs:eu-west-1:111122223333:task/prod/t1",
        .describeTasks "prod" ["arn:aws:ecs:eu-west-1:111122223333:task/prod/t1"]],
       .panic⟩
    ∧ ∀ (w : World) (verbose : Bool) (selectedCluster containerInstanceArn : String)
        (runtimeId : Option String),
        containerStage w verbose selectedCluster containerInstanceArn [⟨none, runtimeId⟩] =
          ⟨[], .panic⟩ :=
  ⟨rfl, rfl, by decide, fun _ _ _ _ _ => rfl⟩

end Eaws
